import Mathlib

/-!
Verification development for the fsql query-translation core
(`lang/transformer.py`): a Lark-grammar-driven parser plus a tree
transformer that folds the parse tree into one of four typed query
descriptors.

Embedding conventions:
* Python runtime values flowing through the transformer are modelled by
  `PyVal`; Python exceptions by `PyErr`; fallible Python code by
  `Except PyErr`.
* Floats are decimal literals in this program, modelled exactly as `Rat`
  (every literal the DSL can produce is a finite decimal).
* The Lark parse tree is modelled by `Node`; lark's `Tree.find_data`,
  `Transformer.transform` and the duck-typed attribute accesses
  (`.children`, `.type`, `.value`, `.data`) are modelled with their
  failure modes (IndexError / AttributeError).
* The grammar file `fsql.lark` is loaded at runtime and is not part of
  the sources; where its content decides a behaviour it is modelled from
  the spec (see `lexQuery` / `parseStmt` / `toPTree`).
* File I/O (reading the grammar) is modelled by an explicit `Env`
  record, and grammar-read events are counted by the `*T` (traced)
  variants of the entry points.
-/

namespace FSQL

/-- Python runtime values that flow through the transformer: ints, floats,
strings, booleans, `None`, and list/tuple displays as produced by
`ast.literal_eval`.  Every float literal the DSL can produce is a finite
decimal, modelled exactly as `.float m k` denoting `m / 10 ^ k` (so
`4.5` is `.float 45 1`); IEEE rounding never distinguishes the values
this program compares. -/
inductive PyVal where
  | int (n : Int)
  | float (mantissa : Int) (scale : Nat)
  | str (s : String)
  | bool (b : Bool)
  | none
  | list (xs : List PyVal)
  | tuple (xs : List PyVal)

/-- Python exception kinds raised inside the parsing/transformation
pipeline (the message text is informative only). -/
inductive PyErr where
  | valueError (msg : String)
  | syntaxError (msg : String)
  | indexError (msg : String)
  | attributeError (msg : String)
  | typeError (msg : String)
  | ioError (msg : String)

/-- `QuerySyntaxError` from `transformer.py`: the single exception kind
re-raised at the `parse` entry point, carrying the original failure. -/
structure QuerySyntaxError where
  cause : PyErr

/-- Single-quote character (U+0027). -/
def squote : Char := Char.ofNat 39

def isWsChar (c : Char) : Bool :=
  c = ' ' || c = '\t' || c = '\n' || c = '\r'

def skipWs : List Char → List Char
  | [] => []
  | c :: cs => if isWsChar c then skipWs cs else c :: cs

def takeDigits : List Char → List Char × List Char
  | [] => ([], [])
  | c :: cs =>
    if c.isDigit then
      let (ds, rest) := takeDigits cs
      (c :: ds, rest)
    else ([], c :: cs)

def digitsToNat (ds : List Char) : Nat :=
  ds.foldl (fun a c => a * 10 + (c.toNat - 48)) 0

/-- Python decimal number literal: `digits`, `digits.digits`, `digits.`
or `.digits` (exponents and underscores never occur in DSL tokens and
are not modelled). -/
def parseNumber (cs : List Char) : Except PyErr (PyVal × List Char) :=
  let (ds, r1) := takeDigits cs
  match r1 with
  | '.' :: r2 =>
    let (fs, r3) := takeDigits r2
    if ds.isEmpty && fs.isEmpty then
      .error (.syntaxError "invalid syntax")
    else
      .ok (.float (digitsToNat (ds ++ fs) : Int) fs.length, r3)
  | _ =>
    if ds.isEmpty then .error (.syntaxError "invalid syntax")
    else .ok (.int (digitsToNat ds), r1)

/-- Escape resolution inside a Python string literal (unknown escapes
keep the backslash, as in Python). -/
def escChar (c : Char) : List Char :=
  if c = 'n' then ['\n']
  else if c = 't' then ['\t']
  else if c = 'r' then ['\r']
  else if c = '\\' then ['\\']
  else if c = squote then [squote]
  else if c = '"' then ['"']
  else ['\\', c]

/-- Body of a quoted Python string literal up to the closing quote `q`. -/
def parseStrBody (q : Char) : List Char → Except PyErr (List Char × List Char)
  | [] => .error (.syntaxError "unterminated string literal")
  | c :: cs =>
    if c = q then .ok ([], cs)
    else if c = '\\' then
      match cs with
      | [] => .error (.syntaxError "unterminated string literal")
      | e :: cs2 => do
        let (body, rest) ← parseStrBody q cs2
        .ok (escChar e ++ body, rest)
    else do
      let (body, rest) ← parseStrBody q cs
      .ok (c :: body, rest)

def isIdentChar (c : Char) : Bool := c.isAlphanum || c = '_'

def takeWord : List Char → List Char × List Char
  | [] => ([], [])
  | c :: cs =>
    if isIdentChar c then
      let (w, rest) := takeWord cs
      (c :: w, rest)
    else ([], c :: cs)

def mkSeq (isList : Bool) (xs : List PyVal) : PyVal :=
  if isList then .list xs else .tuple xs

mutual

/-- One value of the expression fragment `ast.literal_eval` accepts:
numbers (optionally signed, with whitespace after the sign), quoted
strings, `True` / `False` / `None`, list and tuple displays, and
grouping parentheses.  Any identifier (so in particular the DSL words
`true`, `false`, `null`), call, or operator expression is rejected, as
`ast.literal_eval` rejects every AST node outside its literal subset.
Dict / set / bytes / complex displays never occur as DSL tokens and are
outside the modelled fragment.  The fuel argument only serves
termination and exceeds any possible nesting at the entry point. -/
def parseVal : Nat → List Char → Except PyErr (PyVal × List Char)
  | 0, _ => .error (.valueError "recursion limit")
  | _ + 1, [] => .error (.syntaxError "unexpected EOF")
  | fuel + 1, c :: cs =>
    if c = '-' || c = '+' then
      -- ast.literal_eval accepts a single unary sign on a number only
      match parseNumber (skipWs cs) with
      | .error e => .error e
      | .ok (v, rest) =>
        if c = '-' then
          match v with
          | .int n => .ok (.int (-n), rest)
          | .float m k => .ok (.float (-m) k, rest)
          | v => .ok (v, rest)
        else .ok (v, rest)
    else if c.isDigit || c = '.' then parseNumber (c :: cs)
    else if c = '"' || c = squote then
      match parseStrBody c cs with
      | .error e => .error e
      | .ok (body, rest) => .ok (.str (String.mk body), rest)
    else if c = '[' then parseSeq fuel ']' true [] (skipWs cs)
    else if c = '(' then
      match skipWs cs with
      | ')' :: rest => .ok (.tuple [], rest)
      | cs2 =>
        match parseVal fuel cs2 with
        | .error e => .error e
        | .ok (v, r1) =>
          match skipWs r1 with
          | ')' :: r2 => .ok (v, r2)
          | ',' :: r2 => parseSeq fuel ')' false [v] (skipWs r2)
          | _ => .error (.syntaxError "invalid syntax")
    else
      let (w, rest) := takeWord (c :: cs)
      if w = ['T', 'r', 'u', 'e'] then .ok (.bool true, rest)
      else if w = ['F', 'a', 'l', 's', 'e'] then .ok (.bool false, rest)
      else if w = ['N', 'o', 'n', 'e'] then .ok (.none, rest)
      else .error (.valueError "malformed node or string")

/-- Comma-separated elements of a list / tuple display up to the closing
bracket (trailing comma allowed, as in Python). -/
def parseSeq : Nat → Char → Bool → List PyVal → List Char → Except PyErr (PyVal × List Char)
  | 0, _, _, _, _ => .error (.valueError "recursion limit")
  | _ + 1, _, _, _, [] => .error (.syntaxError "unexpected EOF")
  | fuel + 1, close, isList, acc, c :: cs2 =>
    if c = close then .ok (mkSeq isList acc.reverse, cs2)
    else
      match parseVal fuel (c :: cs2) with
      | .error e => .error e
      | .ok (v, r1) =>
        match skipWs r1 with
        | [] => .error (.syntaxError "unexpected EOF")
        | c2 :: r2 =>
          if c2 = ',' then parseSeq fuel close isList (v :: acc) (skipWs r2)
          else if c2 = close then .ok (mkSeq isList (v :: acc).reverse, r2)
          else .error (.syntaxError "invalid syntax")

end

/-- Model of `ast.literal_eval` as used by `as_value` / `as_fsql_match`:
parse one literal expression and require the whole input be consumed. -/
def literal_eval (s : String) : Except PyErr PyVal :=
  let cs := skipWs s.toList
  match parseVal (cs.length + 1) cs with
  | .error e => .error e
  | .ok (v, rest) =>
    if (skipWs rest).isEmpty then .ok v
    else .error (.syntaxError "invalid syntax")


/-- `FSQLQueryType`: the supported query kinds. -/
inductive FSQLQueryType where
  | SELECT
  | UPDATE
  | DELETE
  | SHOW
deriving DecidableEq

/-- `FSQLSubjectType`: the supported subject addressing kinds. -/
inductive FSQLSubjectType where
  | COLLECTION_GROUP
  | DOCUMENT
  | COLLECTION
deriving DecidableEq

/-- One element of the descriptor's `where` list (the `FSQLWhere` dict:
keys `field`, `operator`, `value`). -/
structure FSQLWhere where
  field : PyVal
  operator : String
  value : PyVal

/-- One element of an update descriptor's `set` list (the
`FSQLUpdateSet` dict: keys `property`, `value`). -/
structure FSQLUpdateSet where
  property : PyVal
  value : PyVal

/-- The four descriptor dicts the transformer callbacks build.  The
`query_type` key is the constructor tag; the remaining keys are fields.
`whereClause` models the `where` key (`where` is reserved in Lean);
Python `None` in the `subject` and `limit` positions is `PyVal.none`,
while the `where` key distinguishes `None` from a (possibly empty)
list, hence `Option`. -/
inductive Descr where
  | select (fields : PyVal) (subject : PyVal) (subject_type : Option FSQLSubjectType)
      (whereClause : Option (List FSQLWhere)) (limit : PyVal)
  | update (subject : PyVal) (subject_type : Option FSQLSubjectType)
      (whereClause : Option (List FSQLWhere)) (set : List FSQLUpdateSet)
  | delete (subject : PyVal) (subject_type : Option FSQLSubjectType)
      (whereClause : Option (List FSQLWhere))
  | showQ (subject : PyVal) (subject_type : Option FSQLSubjectType)
      (whereClause : Option (List FSQLWhere))

def Descr.query_type : Descr → FSQLQueryType
  | .select .. => .SELECT
  | .update .. => .UPDATE
  | .delete .. => .DELETE
  | .showQ .. => .SHOW

def Descr.subject : Descr → PyVal
  | .select _ s _ _ _ => s
  | .update s _ _ _ => s
  | .delete s _ _ => s
  | .showQ s _ _ => s

def Descr.subject_type : Descr → Option FSQLSubjectType
  | .select _ _ st _ _ => st
  | .update _ st _ _ => st
  | .delete _ st _ => st
  | .showQ _ st _ => st

def Descr.whereClause : Descr → Option (List FSQLWhere)
  | .select _ _ _ w _ => w
  | .update _ _ w _ => w
  | .delete _ _ w => w
  | .showQ _ _ w => w

/-- The `limit` key: present only on select descriptors. -/
def Descr.limit : Descr → Option PyVal
  | .select _ _ _ _ l => some l
  | _ => Option.none

/-- A Python object in the transformer pipeline: a lark `Tree` (rule
label + children), a lark `Token` (type + matched text), the `None`
placeholder lark inserts for an absent optional sub-tree
(`maybe_placeholders`), or a descriptor dict produced by a transformer
callback.  A lark rule label compares equal to its name string and also
exposes it as `.value`; both accesses are modelled by the `data`
field. -/
inductive Node where
  | tree (data : String) (children : List Node)
  | tok (ttype : String) (tvalue : String)
  | pynone
  | qdict (d : Descr)

/-- Attribute access `.children` (AttributeError off a `Tree`). -/
def Node.childrenE : Node → Except PyErr (List Node)
  | .tree _ ch => .ok ch
  | _ => .error (.attributeError "children")

/-- Attribute access `.type` (AttributeError off a `Token`). -/
def Node.typeE : Node → Except PyErr String
  | .tok t _ => .ok t
  | _ => .error (.attributeError "type")

/-- Attribute access `.value` (AttributeError off a `Token`). -/
def Node.valueE : Node → Except PyErr String
  | .tok _ v => .ok v
  | _ => .error (.attributeError "value")

/-- Attribute access `.data` / `.data.value` (AttributeError off a
`Tree`). -/
def Node.dataE : Node → Except PyErr String
  | .tree d _ => .ok d
  | _ => .error (.attributeError "data")

/-- Python list indexing `xs[n]` (IndexError past the end). -/
def listGet : List Node → Nat → Except PyErr Node
  | [], _ => .error (.indexError "list index out of range")
  | x :: _, 0 => .ok x
  | _ :: xs, n + 1 => listGet xs n

mutual

/-- Model of lark `Tree.find_data(data)`: every subtree (the receiver
included) whose rule label equals `data`.  Lark enumerates subtrees
bottom-up by level, left to right within a level; in every tree this
grammar produces, a matched rule never has another match strictly below
it, so that order coincides with the left-to-right pre-order used here.
The methods of this program only call `find_data` on `Tree` objects;
other receivers yield `[]`. -/
def find_data (d : String) : Node → List Node
  | .tree da ch =>
    (if da = d then [Node.tree da ch] else []) ++ findDataList d ch
  | _ => []

def findDataList (d : String) : List Node → List Node
  | [] => []
  | c :: cs => find_data d c ++ findDataList d cs

end

/-- `FSQLTree.data_value`: the value of the first `data`-labelled
sub-tree's first child token. -/
def data_value (some_tree : Node) (data : String) : Except PyErr String := do
  let first ← listGet (find_data data some_tree) 0
  let c0 ← listGet (← first.childrenE) 0
  c0.valueE

/-- `FSQLTree.as_value`: dispatch on the leaf token's type — `CNAME`
and `EQUAL` pass the token text through verbatim, `NULL` yields Python
`None`, anything else goes through `ast.literal_eval`. -/
def as_value (some_tree : Node) : Except PyErr PyVal := do
  let c0 ← listGet (← some_tree.childrenE) 0
  let ty ← c0.typeE
  match ty with
  | "CNAME" => return .str (← c0.valueE)
  | "NULL" => return .none
  | "EQUAL" => return .str (← c0.valueE)
  | _ => literal_eval (← c0.valueE)

/-- The body of the list comprehension inside `as_fsql_match`'s array
branch: `ast.literal_eval(token.children[0].value)`. -/
def arrElemEval (token : Node) : Except PyErr PyVal := do
  literal_eval (← (← listGet (← token.childrenE) 0).valueE)

/-- `FSQLTree.as_fsql_match`: the right-hand side of a comparison —
a single literal is coerced with `ast.literal_eval`; an array coerces
every element in order; anything else yields Python `None`. -/
def as_fsql_match (whereTree : Node) : Except PyErr PyVal := do
  let m0 ← listGet (find_data "matching" whereTree) 0
  let matching ← listGet (← m0.childrenE) 0
  let d ← matching.dataE
  if d = "literal" then
    literal_eval (← data_value matching "literal")
  else if d = "array" then
    let vs ← (find_data "literal" matching).mapM arrElemEval
    return .list vs
  else
    return .none

/-- `FSQLTree.as_limit`: `None` stays Python `None`, otherwise
`as_value`. -/
def as_limit : Node → Except PyErr PyVal
  | .pynone => .ok .none
  | limit => as_value limit

/-- The local `token_as_where` closure inside `FSQLTree.as_where`:
field via `as_value` on the `property` sub-tree, operator text via
`data_value`, match value via `as_fsql_match`. -/
def token_as_where (token : Node) : Except PyErr FSQLWhere := do
  let matching ← listGet (find_data "property" token) 0
  let f ← as_value matching
  let op ← data_value token "operator"
  let v ← as_fsql_match token
  return ⟨f, op, v⟩

/-- `FSQLTree.as_where`: `None` for an absent clause, otherwise one
`FSQLWhere` per `comparrison` sub-tree (sic), in source order. -/
def as_where : Node → Except PyErr (Option (List FSQLWhere))
  | .pynone => .ok Option.none
  | whereTree => do
    let cs ← (find_data "comparrison" whereTree).mapM token_as_where
    return some cs

/-- The local `as_setter` closure inside `FSQLTree.as_setters`. -/
def as_setter (token : Node) : Except PyErr FSQLUpdateSet := do
  let matching ← listGet (find_data "property" token) 0
  let p ← as_value matching
  let v ← as_value (← listGet (← token.childrenE) 1)
  return ⟨p, v⟩

/-- `FSQLTree.as_setters`: one `FSQLUpdateSet` per `setter` sub-tree. -/
def as_setters (setter : Node) : Except PyErr (List FSQLUpdateSet) :=
  (find_data "setter" setter).mapM as_setter

/-- `FSQLTree.as_fields`: an explicit `fields` list resolves each
`property` in source order; anything else is the wildcard `"*"`. -/
def as_fields (select : Node) : Except PyErr PyVal := do
  let c0 ← listGet (← select.childrenE) 0
  let d ← c0.dataE
  if d = "fields" then
    let values ← (find_data "property" c0).mapM as_value
    return .list values
  else
    return .str "*"

/-- `FSQLTree.as_fsql_subject_type`: `WITHIN` / `FROM` / `AT` fix the
subject type; any other token type falls off the `match` and yields
Python `None`. -/
def as_fsql_subject_type (subject_type : Node) : Except PyErr (Option FSQLSubjectType) := do
  let c0 ← listGet (← subject_type.childrenE) 0
  let ty ← c0.typeE
  match ty with
  | "WITHIN" => return some .COLLECTION_GROUP
  | "FROM" => return some .COLLECTION
  | "AT" => return some .DOCUMENT
  | _ => return Option.none

/-- `FSQLTree.do_select`: assemble a select descriptor (dict keys in
source order: fields, subject, subject_type, where, limit). -/
def do_select (subset subject_type subject whereArg limitArg : Node) :
    Except PyErr Descr := do
  let f ← as_fields subset
  let s ← as_value subject
  let st ← as_fsql_subject_type subject_type
  let w ← as_where whereArg
  let l ← as_limit limitArg
  return .select f s st w l

/-- `FSQLTree.select_collection`. -/
def select_collection (subset subject_type subject whereArg limitArg : Node) :
    Except PyErr Descr :=
  do_select subset subject_type subject whereArg limitArg

/-- `FSQLTree.select_document`: `where` and `limit` passed explicitly
as `None`. -/
def select_document (subset subject_type subject : Node) : Except PyErr Descr :=
  do_select subset subject_type subject .pynone .pynone

/-- `FSQLTree.update`: setters are computed first, then the dict. -/
def update (subject_type subject setter whereArg : Node) : Except PyErr Descr := do
  let setters ← as_setters setter
  let s ← as_value subject
  let st ← as_fsql_subject_type subject_type
  let w ← as_where whereArg
  return .update s st w setters

/-- `FSQLTree.update_collection`. -/
def update_collection (subject_type subject setter whereArg : Node) :
    Except PyErr Descr :=
  update subject_type subject setter whereArg

/-- `FSQLTree.update_document`: `where` passed explicitly as `None`. -/
def update_document (subject_type subject setter : Node) : Except PyErr Descr :=
  update subject_type subject setter .pynone

/-- `FSQLTree.delete`. -/
def delete (subject_type subject whereArg : Node) : Except PyErr Descr := do
  let s ← as_value subject
  let st ← as_fsql_subject_type subject_type
  let w ← as_where whereArg
  return .delete s st w

/-- `FSQLTree.delete_collection`. -/
def delete_collection (subject_type subject whereArg : Node) : Except PyErr Descr :=
  delete subject_type subject whereArg

/-- `FSQLTree.delete_document`: `where` passed explicitly as `None`. -/
def delete_document (subject_type subject : Node) : Except PyErr Descr :=
  delete subject_type subject .pynone

/-- `FSQLTree.show_collections`: the fixed show descriptor. -/
def show_collections : Except PyErr Descr :=
  .ok (.showQ .none (some .COLLECTION) Option.none)

/-- Lark `Transformer` callback dispatch under `v_args(inline=True)`:
a tree whose rule label names a transformer callback is replaced by the
callback's result on its (already transformed) children, a child-count
mismatch raising TypeError as Python would; every other tree is rebuilt
unchanged (`__default__`).  The grammar's rule names collide with no
helper method (`as_value`, `data_value`, …), so exactly the seven
statement rules dispatch. -/
def applyMethod (data : String) (ch : List Node) : Except PyErr Node :=
  if data = "select_collection" then
    match ch with
    | [a, b, c, w, l] => (select_collection a b c w l).map .qdict
    | _ => .error (.typeError "positional argument count mismatch")
  else if data = "select_document" then
    match ch with
    | [a, b, c] => (select_document a b c).map .qdict
    | _ => .error (.typeError "positional argument count mismatch")
  else if data = "update_collection" then
    match ch with
    | [a, b, c, w] => (update_collection a b c w).map .qdict
    | _ => .error (.typeError "positional argument count mismatch")
  else if data = "update_document" then
    match ch with
    | [a, b, c] => (update_document a b c).map .qdict
    | _ => .error (.typeError "positional argument count mismatch")
  else if data = "delete_collection" then
    match ch with
    | [a, b, c] => (delete_collection a b c).map .qdict
    | _ => .error (.typeError "positional argument count mismatch")
  else if data = "delete_document" then
    match ch with
    | [a, b] => (delete_document a b).map .qdict
    | _ => .error (.typeError "positional argument count mismatch")
  else if data = "show_collections" then
    match ch with
    | [] => show_collections.map .qdict
    | _ => .error (.typeError "positional argument count mismatch")
  else .ok (.tree data ch)

mutual

/-- Model of lark `Transformer.transform`: a bottom-up rewrite — every
child is transformed first, then the rule callback (if any) runs on the
results.  Tokens and `None` placeholders pass through.  (Lark wraps a
callback's exception in a `VisitError` before it escapes; the cause
propagates to the same `except` clause either way, so the wrapper layer
is elided here.) -/
def transformNode : Node → Except PyErr Node
  | .tree d ch =>
    match transformList ch with
    | .error e => .error e
    | .ok tch => applyMethod d tch
  | n => .ok n

def transformList : List Node → Except PyErr (List Node)
  | [] => .ok []
  | c :: cs =>
    match transformNode c with
    | .error e => .error e
    | .ok t =>
      match transformList cs with
      | .error e => .error e
      | .ok ts => .ok (t :: ts)

end

/-- The `FSQLTree` transformer class: `__init__` sets `self.vars = {}`
and no method ever reads or writes it, so `transform` ignores the
instance state. -/
structure FSQLTree where
  vars : List (String × PyVal) := []

/-- Method call `FSQLTree().transform(tree)`. -/
def FSQLTree.transform (_self : FSQLTree) (t : Node) : Except PyErr Node :=
  transformNode t

/-! ### The grammar side, modelled from the spec

The grammar file `fsql.lark` is loaded at runtime and is not among the
sources; everything from here to `lark_parse` is modelled from the
spec: the six statement families of §6, the literal/identifier/keyword
tokens of §4.1 (lark names an anonymous keyword token by its text, so
`null` lexes with token type `NULL` — the type `as_value` matches on —
and `true` / `false` with types `TRUE` / `FALSE`), and rule names
matching the transformer's callbacks and `find_data` keys. -/

/-- A lexical token (type name + matched text). -/
structure Tok where
  ty : String
  tx : String

/-- Modelled from the spec: keyword classification of an identifier-like
word.  Keywords are the statement words of §4.1; `true` / `false` /
`null` are the literal keywords; everything else is a `CNAME`
identifier / path. -/
def classifyWord (w : String) : Tok :=
  if w = "SELECT" || w = "UPDATE" || w = "DELETE" || w = "SHOW" ||
     w = "COLLECTIONS" || w = "FROM" || w = "WITHIN" || w = "AT" ||
     w = "WHERE" || w = "SET" || w = "LIMIT" || w = "AND" then ⟨w, w⟩
  else if w = "true" then ⟨"TRUE", w⟩
  else if w = "false" then ⟨"FALSE", w⟩
  else if w = "null" then ⟨"NULL", w⟩
  else if w = "in" then ⟨"IN", w⟩
  else ⟨"CNAME", w⟩

/-- Characters of an identifier / path token (field paths use `.`,
document paths use `/`). -/
def isNameChar (c : Char) : Bool :=
  c.isAlphanum || c = '_' || c = '.' || c = '/' || c = '-'

def takeName : List Char → List Char × List Char
  | [] => ([], [])
  | c :: cs =>
    if isNameChar c then
      let (w, rest) := takeName cs
      (c :: w, rest)
    else ([], c :: cs)

/-- Raw text of a quoted string token after the opening quote, up to and
including the closing quote (escapes are kept verbatim; the token text
is re-parsed later by `literal_eval`). -/
def takeRawString (q : Char) : List Char → Except PyErr (List Char × List Char)
  | [] => .error (.syntaxError "No terminal matches")
  | c :: cs =>
    if c = q then .ok ([q], cs)
    else if c = '\\' then
      match cs with
      | [] => .error (.syntaxError "No terminal matches")
      | e :: cs2 => do
        let (body, rest) ← takeRawString q cs2
        .ok (c :: e :: body, rest)
    else do
      let (body, rest) ← takeRawString q cs
      .ok (c :: body, rest)

/-- Raw text of a number token: digits with an optional fraction. -/
def takeNumber (cs : List Char) : List Char × List Char :=
  let (ds, r1) := takeDigits cs
  match r1 with
  | '.' :: r2 =>
    let (fs, r3) := takeDigits r2
    (ds ++ '.' :: fs, r3)
  | _ => (ds, r1)

/-- Modelled from the spec: the lexer (lark's `basic` lexer over the
grammar's terminals).  The fuel only serves termination and exceeds the
input length at the entry point. -/
def lexRun : Nat → List Char → Except PyErr (List Tok)
  | 0, _ => .error (.syntaxError "lexer fuel exhausted")
  | _ + 1, [] => .ok []
  | fuel + 1, c :: cs =>
    if isWsChar c then lexRun fuel cs
    else if c = '=' then
      match cs with
      | '=' :: cs2 => do
        let ts ← lexRun fuel cs2
        .ok (⟨"OPERATOR", "=="⟩ :: ts)
      | _ => do
        let ts ← lexRun fuel cs
        .ok (⟨"EQUAL", "="⟩ :: ts)
    else if c = '!' then
      match cs with
      | '=' :: cs2 => do
        let ts ← lexRun fuel cs2
        .ok (⟨"OPERATOR", "!="⟩ :: ts)
      | _ => .error (.syntaxError "No terminal matches")
    else if c = '>' then
      match cs with
      | '=' :: cs2 => do
        let ts ← lexRun fuel cs2
        .ok (⟨"OPERATOR", ">="⟩ :: ts)
      | _ => do
        let ts ← lexRun fuel cs
        .ok (⟨"OPERATOR", ">"⟩ :: ts)
    else if c = '<' then
      match cs with
      | '=' :: cs2 => do
        let ts ← lexRun fuel cs2
        .ok (⟨"OPERATOR", "<="⟩ :: ts)
      | _ => do
        let ts ← lexRun fuel cs
        .ok (⟨"OPERATOR", "<"⟩ :: ts)
    else if c = '[' then do
      let ts ← lexRun fuel cs
      .ok (⟨"LSQB", "["⟩ :: ts)
    else if c = ']' then do
      let ts ← lexRun fuel cs
      .ok (⟨"RSQB", "]"⟩ :: ts)
    else if c = ',' then do
      let ts ← lexRun fuel cs
      .ok (⟨"COMMA", ","⟩ :: ts)
    else if c = '*' then do
      let ts ← lexRun fuel cs
      .ok (⟨"STAR", "*"⟩ :: ts)
    else if c = '"' || c = squote then do
      let (body, rest) ← takeRawString c cs
      let ts ← lexRun fuel rest
      .ok (⟨"STRING", String.mk (c :: body)⟩ :: ts)
    else if c.isDigit then
      let (num, rest) := takeNumber (c :: cs)
      do
        let ts ← lexRun fuel rest
        .ok (⟨"NUMBER", String.mk num⟩ :: ts)
    else if c = '-' then
      match cs with
      | d :: _ =>
        if d.isDigit then
          let (num, rest) := takeNumber cs
          do
            let ts ← lexRun fuel rest
            .ok (⟨"NUMBER", String.mk ('-' :: num)⟩ :: ts)
        else .error (.syntaxError "No terminal matches")
      | [] => .error (.syntaxError "No terminal matches")
    else if c.isAlpha || c = '_' then
      let (w, rest) := takeName (c :: cs)
      do
        let ts ← lexRun fuel rest
        .ok (classifyWord (String.mk w) :: ts)
    else .error (.syntaxError "No terminal matches")

/-- Modelled from the spec: tokenize one query. -/
def lexQuery (s : String) : Except PyErr (List Tok) :=
  lexRun (s.toList.length + 1) s.toList

/-- Modelled from the spec: the keyword introducing a collection-scoped
subject (`FROM` or `WITHIN`); document-scoped statements use `AT`. -/
inductive CKw where
  | fromKw
  | withinKw
deriving DecidableEq

def CKw.text : CKw → String
  | .fromKw => "FROM"
  | .withinKw => "WITHIN"

/-- Modelled from the spec: a select projection — `*` or an explicit
field list. -/
inductive Subset where
  | star
  | fields (names : List String)

/-- Modelled from the spec: a comparison's right-hand side — one
literal token or a bracketed list of literal tokens, each kept as
(token type, token text). -/
inductive Matching where
  | lit (ty tx : String)
  | arr (lits : List (String × String))

/-- Modelled from the spec: one `WHERE` comparison. -/
structure Cond where
  field : String
  op : String
  rhs : Matching

/-- Modelled from the spec: one `SET` assignment; the right-hand side
token may be an identifier, a literal, or a literal keyword. -/
structure SetterA where
  prop : String
  vty : String
  vtx : String

/-- Modelled from the spec: the six statement families of §6 plus
`SHOW COLLECTIONS`, as the grammar derives them. -/
inductive Stmt where
  | selectC (sub : Subset) (kw : CKw) (subj : String)
      (wh : Option (List Cond)) (lim : Option String)
  | selectD (sub : Subset) (subj : String)
  | updateC (kw : CKw) (subj : String) (sets : List SetterA) (wh : List Cond)
  | updateD (subj : String) (sets : List SetterA)
  | deleteC (kw : CKw) (subj : String) (wh : List Cond)
  | deleteD (subj : String)
  | showColl

/-- `property` sub-tree. -/
def propT (f : String) : Node := .tree "property" [.tok "CNAME" f]

/-- `operator` sub-tree (the transformer reads only the token text). -/
def operatorT (op : String) : Node := .tree "operator" [.tok "OPERATOR" op]

/-- `literal` sub-tree. -/
def literalT (ty tx : String) : Node := .tree "literal" [.tok ty tx]

/-- `matching` sub-tree: a `literal` or an `array` of literals. -/
def matchingT : Matching → Node
  | .lit ty tx => .tree "matching" [literalT ty tx]
  | .arr lits => .tree "matching" [.tree "array" (lits.map (fun p => literalT p.1 p.2))]

/-- `comparrison` sub-tree (sic — the grammar's spelling, used by
`as_where`). -/
def condT (c : Cond) : Node :=
  .tree "comparrison" [propT c.field, operatorT c.op, matchingT c.rhs]

/-- `where` sub-tree: the comparisons in source order. -/
def whereT (cs : List Cond) : Node := .tree "where" (cs.map condT)

/-- An optional `where` child: lark's `None` placeholder when absent. -/
def whereOptT : Option (List Cond) → Node
  | Option.none => .pynone
  | some cs => whereT cs

/-- `subject` sub-tree: the path lexes as one `CNAME` token (the type
`as_value` passes through verbatim). -/
def subjectT (s : String) : Node := .tree "subject" [.tok "CNAME" s]

/-- `subject_type` sub-tree: the named keyword terminal is kept and its
type drives `as_fsql_subject_type`. -/
def subjTypeT (k : String) : Node := .tree "subject_type" [.tok k k]

/-- `subset` sub-tree: an `all` marker or an explicit `fields` list
(`as_fields` tests the first child's rule label). -/
def subsetT : Subset → Node
  | .star => .tree "subset" [.tree "all" []]
  | .fields ns => .tree "subset" [.tree "fields" (ns.map propT)]

/-- `limit` sub-tree. -/
def limitT (n : String) : Node := .tree "limit" [.tok "NUMBER" n]

/-- An optional `limit` child. -/
def limOptT : Option String → Node
  | Option.none => .pynone
  | some n => limitT n

/-- `setter` sub-tree: property and value (the anonymous `=` between
them is filtered out of the tree, so the value is `children[1]`). -/
def setterT (s : SetterA) : Node :=
  .tree "setter" [propT s.prop, .tree "setval" [.tok s.vty s.vtx]]

/-- The tree holding all `setter` sub-trees (`as_setters` collects them
with `find_data`). -/
def settersT (ss : List SetterA) : Node := .tree "setters" (ss.map setterT)

/-- The statement-rule sub-tree for one derived statement. -/
def stmtT : Stmt → Node
  | .selectC sub kw subj wh lim =>
    .tree "select_collection"
      [subsetT sub, subjTypeT kw.text, subjectT subj, whereOptT wh, limOptT lim]
  | .selectD sub subj =>
    .tree "select_document" [subsetT sub, subjTypeT "AT", subjectT subj]
  | .updateC kw subj sets wh =>
    .tree "update_collection" [subjTypeT kw.text, subjectT subj, settersT sets, whereT wh]
  | .updateD subj sets =>
    .tree "update_document" [subjTypeT "AT", subjectT subj, settersT sets]
  | .deleteC kw subj wh =>
    .tree "delete_collection" [subjTypeT kw.text, subjectT subj, whereT wh]
  | .deleteD subj =>
    .tree "delete_document" [subjTypeT "AT", subjectT subj]
  | .showColl => .tree "show_collections" []

/-- The full lark parse tree: the `start` rule wrapping one statement
(`parse` takes the transformed root's `children[0]`). -/
def toPTree (s : Stmt) : Node := .tree "start" [stmtT s]

/-- Token types a `literal` may carry. -/
def isLitTy (ty : String) : Bool :=
  ty = "NUMBER" || ty = "STRING" || ty = "TRUE" || ty = "FALSE" || ty = "NULL"

/-- Comparison-operator tokens (the spec leaves the operator set to the
grammar; it is passed through verbatim). -/
def isOpTok (t : Tok) : Bool := t.ty = "OPERATOR" || t.ty = "IN"

def expectEnd : List Tok → Except PyErr Unit
  | [] => .ok ()
  | _ => .error (.syntaxError "unexpected token at end of input")

def expectTy (ty : String) : List Tok → Except PyErr (List Tok)
  | t :: rest =>
    if t.ty = ty then .ok rest else .error (.syntaxError "unexpected token")
  | [] => .error (.syntaxError "unexpected end of input")

def parseSubject : List Tok → Except PyErr (String × List Tok)
  | ⟨"CNAME", tx⟩ :: rest => .ok (tx, rest)
  | _ => .error (.syntaxError "expected subject path")

/-- Elements of a non-empty bracketed literal list, after `[`. -/
def parseArrayTail : Nat → List (String × String) → List Tok →
    Except PyErr (List (String × String) × List Tok)
  | 0, _, _ => .error (.syntaxError "parser fuel exhausted")
  | _ + 1, _, [] => .error (.syntaxError "unexpected end of input")
  | fuel + 1, acc, ⟨ty, tx⟩ :: rest =>
    if isLitTy ty then
      match rest with
      | ⟨"COMMA", _⟩ :: rest2 => parseArrayTail fuel ((ty, tx) :: acc) rest2
      | ⟨"RSQB", _⟩ :: rest2 => .ok (((ty, tx) :: acc).reverse, rest2)
      | _ => .error (.syntaxError "unexpected token in array")
    else .error (.syntaxError "expected literal in array")

/-- A comparison's right-hand side: one literal or a bracketed list. -/
def parseMatching (fuel : Nat) : List Tok → Except PyErr (Matching × List Tok)
  | ⟨"LSQB", _⟩ :: rest =>
    match rest with
    | ⟨"RSQB", _⟩ :: rest2 => .ok (.arr [], rest2)
    | _ => do
      let (ls, r) ← parseArrayTail fuel [] rest
      .ok (.arr ls, r)
  | ⟨ty, tx⟩ :: rest =>
    if isLitTy ty then .ok (.lit ty tx, rest)
    else .error (.syntaxError "expected literal")
  | [] => .error (.syntaxError "unexpected end of input")

/-- One comparison: `field op literal-or-list`. -/
def parseCond (fuel : Nat) : List Tok → Except PyErr (Cond × List Tok)
  | ⟨"CNAME", f⟩ :: optok :: rest =>
    if isOpTok optok then do
      let (m, r) ← parseMatching fuel rest
      .ok (⟨f, optok.tx, m⟩, r)
    else .error (.syntaxError "expected comparison operator")
  | _ => .error (.syntaxError "expected comparison")

/-- `cond (AND cond)*` after `WHERE`. -/
def parseCondsTail : Nat → List Cond → List Tok → Except PyErr (List Cond × List Tok)
  | 0, _, _ => .error (.syntaxError "parser fuel exhausted")
  | fuel + 1, acc, tks => do
    let (c, r) ← parseCond fuel tks
    match r with
    | ⟨"AND", _⟩ :: r2 => parseCondsTail fuel (c :: acc) r2
    | _ => .ok ((c :: acc).reverse, r)

/-- An optional `WHERE` clause. -/
def parseWhereOpt (fuel : Nat) : List Tok → Except PyErr (Option (List Cond) × List Tok)
  | ⟨"WHERE", _⟩ :: rest => do
    let (cs, r) ← parseCondsTail fuel [] rest
    .ok (some cs, r)
  | tks => .ok (Option.none, tks)

/-- An optional `LIMIT <int>` clause. -/
def parseLimitOpt : List Tok → Except PyErr (Option String × List Tok)
  | ⟨"LIMIT", _⟩ :: ⟨"NUMBER", n⟩ :: rest => .ok (some n, rest)
  | ⟨"LIMIT", _⟩ :: _ => .error (.syntaxError "expected limit value")
  | tks => .ok (Option.none, tks)

/-- `, field` continuations of an explicit field list. -/
def parseFieldsTail : Nat → List String → List Tok →
    Except PyErr (List String × List Tok)
  | 0, _, _ => .error (.syntaxError "parser fuel exhausted")
  | fuel + 1, acc, tks =>
    match tks with
    | ⟨"COMMA", _⟩ :: rest =>
      match rest with
      | ⟨"CNAME", f⟩ :: rest2 => parseFieldsTail fuel (f :: acc) rest2
      | _ => .error (.syntaxError "expected field name")
    | _ => .ok (acc.reverse, tks)

/-- The select projection: `*` or `field (, field)*`. -/
def parseSubset (fuel : Nat) : List Tok → Except PyErr (Subset × List Tok)
  | ⟨"STAR", _⟩ :: rest => .ok (.star, rest)
  | ⟨"CNAME", f⟩ :: rest => do
    let (fs, r) ← parseFieldsTail fuel [f] rest
    .ok (.fields fs, r)
  | _ => .error (.syntaxError "expected projection")

/-- One `prop = value` assignment. -/
def parseSetter : List Tok → Except PyErr (SetterA × List Tok)
  | ⟨"CNAME", p⟩ :: ⟨"EQUAL", _⟩ :: ⟨ty, tx⟩ :: rest =>
    if isLitTy ty || ty = "CNAME" then .ok (⟨p, ty, tx⟩, rest)
    else .error (.syntaxError "expected setter value")
  | _ => .error (.syntaxError "expected setter")

/-- `setter (, setter)*` after `SET`. -/
def parseSettersTail : Nat → List SetterA → List Tok →
    Except PyErr (List SetterA × List Tok)
  | 0, _, _ => .error (.syntaxError "parser fuel exhausted")
  | fuel + 1, acc, tks => do
    let (s, r) ← parseSetter tks
    match r with
    | ⟨"COMMA", _⟩ :: r2 => parseSettersTail fuel (s :: acc) r2
    | _ => .ok ((s :: acc).reverse, r)

/-- Tail of a collection-scoped select after its `FROM` / `WITHIN`. -/
def parseSelectColl (fuel : Nat) (sub : Subset) (kw : CKw) (tks : List Tok) :
    Except PyErr Stmt := do
  let (subj, r1) ← parseSubject tks
  let (wh, r2) ← parseWhereOpt fuel r1
  let (lim, r3) ← parseLimitOpt r2
  expectEnd r3
  return .selectC sub kw subj wh lim

/-- Tail of a `SELECT` statement after its projection: dispatch on the
subject keyword. -/
def parseSelectAfterSubset (fuel : Nat) (sub : Subset) : List Tok → Except PyErr Stmt
  | ⟨"AT", _⟩ :: r2 => do
    let (subj, r3) ← parseSubject r2
    expectEnd r3
    return .selectD sub subj
  | ⟨"FROM", _⟩ :: r2 => parseSelectColl fuel sub .fromKw r2
  | ⟨"WITHIN", _⟩ :: r2 => parseSelectColl fuel sub .withinKw r2
  | _ => .error (.syntaxError "expected FROM, WITHIN or AT")

/-- Tail of a `SELECT` statement after the keyword. -/
def parseSelectRest (fuel : Nat) (tks : List Tok) : Except PyErr Stmt := do
  let (sub, r1) ← parseSubset fuel tks
  parseSelectAfterSubset fuel sub r1

/-- Tail of a collection-scoped update after its `FROM` / `WITHIN`
(`WHERE` is mandatory on this form). -/
def parseUpdateColl (fuel : Nat) (kw : CKw) (tks : List Tok) :
    Except PyErr Stmt := do
  let (subj, r1) ← parseSubject tks
  let r2 ← expectTy "SET" r1
  let (sets, r3) ← parseSettersTail fuel [] r2
  let r4 ← expectTy "WHERE" r3
  let (wh, r5) ← parseCondsTail fuel [] r4
  expectEnd r5
  return .updateC kw subj sets wh

/-- Tail of an `UPDATE` statement after the keyword. -/
def parseUpdateRest (fuel : Nat) : List Tok → Except PyErr Stmt
  | ⟨"AT", _⟩ :: r => do
    let (subj, r1) ← parseSubject r
    let r2 ← expectTy "SET" r1
    let (sets, r3) ← parseSettersTail fuel [] r2
    expectEnd r3
    return .updateD subj sets
  | ⟨"FROM", _⟩ :: r => parseUpdateColl fuel .fromKw r
  | ⟨"WITHIN", _⟩ :: r => parseUpdateColl fuel .withinKw r
  | _ => .error (.syntaxError "expected FROM, WITHIN or AT")

/-- Tail of a collection-scoped delete after its `FROM` / `WITHIN`
(`WHERE` is mandatory on this form). -/
def parseDeleteColl (fuel : Nat) (kw : CKw) (tks : List Tok) :
    Except PyErr Stmt := do
  let (subj, r1) ← parseSubject tks
  let r2 ← expectTy "WHERE" r1
  let (wh, r3) ← parseCondsTail fuel [] r2
  expectEnd r3
  return .deleteC kw subj wh

/-- Tail of a `DELETE` statement after the keyword. -/
def parseDeleteRest (fuel : Nat) : List Tok → Except PyErr Stmt
  | ⟨"AT", _⟩ :: r => do
    let (subj, r1) ← parseSubject r
    expectEnd r1
    return .deleteD subj
  | ⟨"FROM", _⟩ :: r => parseDeleteColl fuel .fromKw r
  | ⟨"WITHIN", _⟩ :: r => parseDeleteColl fuel .withinKw r
  | _ => .error (.syntaxError "expected FROM, WITHIN or AT")

/-- Tail of `SHOW COLLECTIONS`. -/
def parseShowRest (tks : List Tok) : Except PyErr Stmt := do
  let r ← expectTy "COLLECTIONS" tks
  expectEnd r
  return .showColl

/-- Modelled from the spec: derive one statement from the token list,
dispatching on the leading statement keyword. -/
def parseStmt (tks : List Tok) : Except PyErr Stmt :=
  match tks with
  | [] => .error (.syntaxError "expected a statement keyword")
  | t :: rest =>
    if t.ty = "SELECT" then parseSelectRest (tks.length + 1) rest
    else if t.ty = "UPDATE" then parseUpdateRest (tks.length + 1) rest
    else if t.ty = "DELETE" then parseDeleteRest (tks.length + 1) rest
    else if t.ty = "SHOW" then parseShowRest rest
    else .error (.syntaxError "expected a statement keyword")

/-- Modelled from the spec: a stand-in for the text of the grammar file
`fsql.lark` (not among the sources).  Only its identity as the one
grammar the program loads matters to any claim. -/
def fsqlGrammarText : String := "fsql.lark grammar (modelled from the spec)"

/-- Modelled from the spec: `Lark(grammar, lexer="basic").parse(query)`
for the fsql grammar — lex, derive one of the seven statement rules,
and build the parse tree.  Any other grammar text is outside the
model. -/
def lark_parse (grammar : String) (query : String) : Except PyErr Node :=
  if grammar = fsqlGrammarText then
    match lexQuery query with
    | .error e => .error e
    | .ok tks =>
      match parseStmt tks with
      | .error e => .error e
      | .ok stmt => .ok (toPTree stmt)
  else .error (.valueError "grammar not modelled")

/-- The file-system environment `read_grammar` runs in: the grammar
file's content, or the message of the OSError that locating / opening /
reading it raises. -/
structure Env where
  grammar : Except String String

/-- `read_grammar` (with `resource_path` folded into the environment):
the file content, or the I/O failure as a Python exception. -/
def read_grammar (env : Env) : Except PyErr String :=
  match env.grammar with
  | .ok s => .ok s
  | .error msg => .error (.ioError msg)

/-- `build_parse_tree`, instrumented with the number of grammar-file
reads (equally, `Lark` parser constructions) one invocation performs:
the body calls `read_grammar()` and builds a fresh `Lark` parser every
time it runs. -/
def build_parse_treeT (env : Env) (query : String) : Except PyErr Node × Nat :=
  (match read_grammar env with
   | .error e => .error e
   | .ok grammar => lark_parse grammar query, 1)

/-- `build_parse_tree(query)`. -/
def build_parse_tree (env : Env) (query : String) : Except PyErr Node :=
  (build_parse_treeT env query).1

/-- The body of `parse`'s `try` block: build the parse tree, transform
it with a freshly constructed `FSQLTree`, and return the transformed
root's `children[0]`. -/
def parseBody (env : Env) (query : String) : Except PyErr Node := do
  let parse_tree ← build_parse_tree env query
  let ql_tree ← FSQLTree.transform {} parse_tree
  listGet (← ql_tree.childrenE) 0

/-- `parse(query)`: any exception escaping the body is re-raised as
`QuerySyntaxError` carrying it as cause. -/
def parse (env : Env) (query : String) : Except QuerySyntaxError Node :=
  match parseBody env query with
  | .ok fsql_query => .ok fsql_query
  | .error err => .error ⟨err⟩

/-- `parse`, paired with the number of grammar reads the call performs
(those of its single `build_parse_tree` invocation). -/
def parseT (env : Env) (query : String) : Except QuerySyntaxError Node × Nat :=
  (parse env query, (build_parse_treeT env query).2)

/-- The environment in which the grammar file is present. -/
def goodEnv : Env := ⟨.ok fsqlGrammarText⟩

/-- The statement keyword that derives a given statement. -/
def Stmt.keyword : Stmt → String
  | .selectC .. => "SELECT"
  | .selectD .. => "SELECT"
  | .updateC .. => "UPDATE"
  | .updateD .. => "UPDATE"
  | .deleteC .. => "DELETE"
  | .deleteD .. => "DELETE"
  | .showColl => "SHOW"

/-- The query type the spec associates with a statement's keyword. -/
def Stmt.qtype : Stmt → FSQLQueryType
  | .selectC .. => .SELECT
  | .selectD .. => .SELECT
  | .updateC .. => .UPDATE
  | .updateD .. => .UPDATE
  | .deleteC .. => .DELETE
  | .deleteD .. => .DELETE
  | .showColl => .SHOW

/-- The keyword introducing a statement's subject (`SHOW COLLECTIONS`
has none). -/
def Stmt.subjectKw : Stmt → Option String
  | .selectC _ kw _ _ _ => some kw.text
  | .selectD _ _ => some "AT"
  | .updateC kw _ _ _ => some kw.text
  | .updateD _ _ => some "AT"
  | .deleteC kw _ _ => some kw.text
  | .deleteD _ => some "AT"
  | .showColl => Option.none

/-- The transformer callback the derivation of a statement fires,
applied to that statement's (untransformed) sub-trees — the value the
bottom-up transform computes at the statement rule. -/
def stmtApplied : Stmt → Except PyErr Descr
  | .selectC sub kw subj wh lim =>
    select_collection (subsetT sub) (subjTypeT kw.text) (subjectT subj)
      (whereOptT wh) (limOptT lim)
  | .selectD sub subj =>
    select_document (subsetT sub) (subjTypeT "AT") (subjectT subj)
  | .updateC kw subj sets wh =>
    update_collection (subjTypeT kw.text) (subjectT subj) (settersT sets) (whereT wh)
  | .updateD subj sets =>
    update_document (subjTypeT "AT") (subjectT subj) (settersT sets)
  | .deleteC kw subj wh =>
    delete_collection (subjTypeT kw.text) (subjectT subj) (whereT wh)
  | .deleteD subj =>
    delete_document (subjTypeT "AT") (subjectT subj)
  | .showColl => show_collections

/-- The type of the first token of a query, when it lexes. -/
def leadingTy (q : String) : Option String :=
  match lexQuery q with
  | .ok (t :: _) => some t.ty
  | _ => Option.none

/-- Spec-side reading of match-value resolution (C6): a single literal
coerces to one value; an array coerces every bracketed element in
source order. -/
def specMatch : Matching → Except PyErr PyVal
  | .lit _ tx => literal_eval tx
  | .arr lits => do
    let vs ← lits.mapM (fun p => literal_eval p.2)
    pure (.list vs)

/-- Spec-side reading of one where clause (C6): the left-hand property
name via atomic value resolution (a verbatim string), the operator
token's text verbatim, and the coerced match value. -/
def specCond (c : Cond) : Except PyErr FSQLWhere := do
  let v ← specMatch c.rhs
  pure ⟨.str c.field, c.op, v⟩

/-! ### Helper lemmas -/

theorem except_bind_ok {ε α β : Type} {m : Except ε α} {k : α → Except ε β} {r : β} :
    m >>= k = .ok r ↔ ∃ a, m = .ok a ∧ k a = .ok r := by
  cases m <;> simp [Bind.bind, Except.bind]

/-- Success shape of `do_select`: an ok result is a select dict whose
fields come from the corresponding helper calls. -/
theorem do_select_ok_shape {a b c w l : Node} {d : Descr}
    (h : do_select a b c w l = .ok d) :
    ∃ f s st wh li, as_fields a = .ok f ∧ as_value c = .ok s ∧
      as_fsql_subject_type b = .ok st ∧ as_where w = .ok wh ∧
      as_limit l = .ok li ∧ d = .select f s st wh li := by
  unfold do_select at h
  obtain ⟨f, hf, h⟩ := except_bind_ok.mp h
  obtain ⟨s, hs, h⟩ := except_bind_ok.mp h
  obtain ⟨st, hst, h⟩ := except_bind_ok.mp h
  obtain ⟨wh, hwh, h⟩ := except_bind_ok.mp h
  obtain ⟨li, hli, h⟩ := except_bind_ok.mp h
  exact ⟨f, s, st, wh, li, hf, hs, hst, hwh, hli, by
    simpa [Pure.pure, Except.pure] using h.symm⟩

/-- Success shape of `update`. -/
theorem update_ok_shape {a b se w : Node} {d : Descr}
    (h : update a b se w = .ok d) :
    ∃ ss s st wh, as_setters se = .ok ss ∧ as_value b = .ok s ∧
      as_fsql_subject_type a = .ok st ∧ as_where w = .ok wh ∧
      d = .update s st wh ss := by
  unfold update at h
  obtain ⟨ss, hss, h⟩ := except_bind_ok.mp h
  obtain ⟨s, hs, h⟩ := except_bind_ok.mp h
  obtain ⟨st, hst, h⟩ := except_bind_ok.mp h
  obtain ⟨wh, hwh, h⟩ := except_bind_ok.mp h
  exact ⟨ss, s, st, wh, hss, hs, hst, hwh, by
    simpa [Pure.pure, Except.pure] using h.symm⟩

/-- Success shape of `delete`. -/
theorem delete_ok_shape {a b w : Node} {d : Descr}
    (h : delete a b w = .ok d) :
    ∃ s st wh, as_value b = .ok s ∧ as_fsql_subject_type a = .ok st ∧
      as_where w = .ok wh ∧ d = .delete s st wh := by
  unfold delete at h
  obtain ⟨s, hs, h⟩ := except_bind_ok.mp h
  obtain ⟨st, hst, h⟩ := except_bind_ok.mp h
  obtain ⟨wh, hwh, h⟩ := except_bind_ok.mp h
  exact ⟨s, st, wh, hs, hst, hwh, by
    simpa [Pure.pure, Except.pure] using h.symm⟩

/-! ### Claim theorems (first batch) -/

/-- C4 (counterexample): the literal coercion step is not the spec's
restricted literal evaluator — it accepts a parenthesized tuple (a form
outside the restricted subset) and rejects the DSL's `null` keyword
text (a form the claim says it accepts). -/
theorem literal_eval_beyond_restricted_subset :
    literal_eval "(1, 2)" = .ok (.tuple [.int 1, .int 2]) ∧
    literal_eval "null" = .error (.valueError "malformed node or string") :=
  ⟨rfl, rfl⟩

/-- C4 (amended): literal coercion is Python literal evaluation — it
accepts decimal integers, decimal floats, quoted strings, bracketed
lists, and Python's capitalized `True` / `False` / `None`, and rejects
identifiers, function calls and arithmetic expressions; but it is not
restricted to the spec's literal subset (it also accepts signed numbers
and parenthesized tuples), and it rejects the DSL's lowercase `true` /
`false` / `null` keyword texts. -/
theorem literal_eval_amended_behaviour :
    literal_eval "42" = .ok (.int 42) ∧
    literal_eval "4.5" = .ok (.float 45 1) ∧
    literal_eval "\x27x\x27" = .ok (.str "x") ∧
    literal_eval "\"x\"" = .ok (.str "x") ∧
    literal_eval "[1, 2, 3]" = .ok (.list [.int 1, .int 2, .int 3]) ∧
    literal_eval "True" = .ok (.bool true) ∧
    literal_eval "False" = .ok (.bool false) ∧
    literal_eval "None" = .ok (.none) ∧
    literal_eval "abc" = .error (.valueError "malformed node or string") ∧
    literal_eval "f(1)" = .error (.valueError "malformed node or string") ∧
    literal_eval "1 + 2" = .error (.syntaxError "invalid syntax") ∧
    literal_eval "-5" = .ok (.int (-5)) ∧
    literal_eval "(1, 2)" = .ok (.tuple [.int 1, .int 2]) ∧
    literal_eval "true" = .error (.valueError "malformed node or string") ∧
    literal_eval "false" = .error (.valueError "malformed node or string") ∧
    literal_eval "null" = .error (.valueError "malformed node or string") :=
  ⟨rfl, rfl, rfl, rfl, rfl, rfl, rfl, rfl, rfl, rfl, rfl, rfl, rfl, rfl, rfl, rfl⟩

/-- C5 (counterexample): the DSL boolean keywords never coerce to
booleans.  Whatever token type the grammar assigns the text `true`, the
result is wrong: under a dedicated boolean terminal (lark names it
`TRUE`) `as_value` routes the text to `ast.literal_eval`, which rejects
lowercase `true`; and if the word lexed as a plain `CNAME` identifier,
`as_value` would return the string `"true"`, not a boolean. -/
theorem as_value_booleans_never_coerce :
    as_value (.tree "setval" [.tok "TRUE" "true"]) =
      .error (.valueError "malformed node or string") ∧
    as_value (.tree "setval" [.tok "CNAME" "true"]) = .ok (.str "true") :=
  ⟨rfl, rfl⟩

/-- C5 (amended): `as_value` passes `CNAME` and `EQUAL` token text
through verbatim as strings, maps the `NULL` keyword token to an
explicit null, and routes every other literal token through Python
literal evaluation — `42` to integer 42, `4.5` to float 4.5, `'x'` to
the string `"x"`; the lowercase boolean keyword texts `true` / `false`
are not Python literals and raise a coercion failure instead of
yielding booleans. -/
theorem as_value_amended_behaviour :
    (∀ d v rest, as_value (.tree d (.tok "CNAME" v :: rest)) = .ok (.str v)) ∧
    (∀ d v rest, as_value (.tree d (.tok "EQUAL" v :: rest)) = .ok (.str v)) ∧
    (∀ d v rest, as_value (.tree d (.tok "NULL" v :: rest)) = .ok .none) ∧
    as_value (.tree "literal" [.tok "NUMBER" "42"]) = .ok (.int 42) ∧
    as_value (.tree "literal" [.tok "NUMBER" "4.5"]) = .ok (.float 45 1) ∧
    as_value (.tree "literal" [.tok "STRING" "\x27x\x27"]) = .ok (.str "x") ∧
    as_value (.tree "literal" [.tok "TRUE" "true"]) =
      .error (.valueError "malformed node or string") ∧
    as_value (.tree "literal" [.tok "FALSE" "false"]) =
      .error (.valueError "malformed node or string") :=
  ⟨fun _ _ _ => rfl, fun _ _ _ => rfl, fun _ _ _ => rfl, rfl, rfl, rfl, rfl, rfl⟩

/-- C7: the document-scoped transformation rules pass `None` for the
inputs their grammar forms never supply — every select-document result
has `where = None` and `limit = None`, and every delete-document and
update-document result has `where = None`. -/
theorem document_scoped_where_limit_none :
    (∀ a b c d, select_document a b c = .ok d →
      d.whereClause = Option.none ∧ d.limit = some PyVal.none) ∧
    (∀ a b d, delete_document a b = .ok d → d.whereClause = Option.none) ∧
    (∀ a b s d, update_document a b s = .ok d → d.whereClause = Option.none) := by
  refine ⟨?_, ?_, ?_⟩
  · intro a b c d h
    obtain ⟨f, s, st, wh, li, -, -, -, hwh, hli, rfl⟩ := do_select_ok_shape h
    have h1 : wh = Option.none := by
      have : as_where Node.pynone = .ok Option.none := rfl
      rw [this] at hwh; exact (Except.ok.inj hwh).symm
    have h2 : li = PyVal.none := by
      have : as_limit Node.pynone = .ok PyVal.none := rfl
      rw [this] at hli; exact (Except.ok.inj hli).symm
    subst h1; subst h2
    exact ⟨rfl, rfl⟩
  · intro a b d h
    obtain ⟨s, st, wh, -, -, hwh, rfl⟩ := delete_ok_shape h
    have h1 : wh = Option.none := by
      have : as_where Node.pynone = .ok Option.none := rfl
      rw [this] at hwh; exact (Except.ok.inj hwh).symm
    subst h1; rfl
  · intro a b s d h
    obtain ⟨ss, sv, st, wh, -, -, -, hwh, rfl⟩ := update_ok_shape h
    have h1 : wh = Option.none := by
      have : as_where Node.pynone = .ok Option.none := rfl
      rw [this] at hwh; exact (Except.ok.inj hwh).symm
    subst h1; rfl

/-- C7 witness at a concrete document-scoped select. -/
theorem document_scoped_where_limit_none_witness :
    select_document (subsetT .star) (subjTypeT "AT") (subjectT "people/1") =
      .ok (.select (.str "*") (.str "people/1") (some .DOCUMENT)
        Option.none .none) ∧
    (Descr.select (.str "*") (.str "people/1") (some .DOCUMENT)
      Option.none .none).whereClause = Option.none ∧
    (Descr.select (.str "*") (.str "people/1") (some .DOCUMENT)
      Option.none .none).limit = some PyVal.none :=
  ⟨rfl,
    (document_scoped_where_limit_none.1 (subsetT .star) (subjTypeT "AT")
      (subjectT "people/1") _ rfl).1,
    (document_scoped_where_limit_none.1 (subsetT .star) (subjTypeT "AT")
      (subjectT "people/1") _ rfl).2⟩

/-- C8: `parse` is deterministic and stateless — identical text yields
structurally equal results, and the transformer's per-instance `vars`
scratch state (never read by any method) cannot influence any
transformation, so a fresh instance per call leaks nothing between
calls. -/
theorem parse_deterministic_stateless :
    (∀ env q, parse env q = parse env q) ∧
    (∀ v1 v2 t, FSQLTree.transform ⟨v1⟩ t = FSQLTree.transform ⟨v2⟩ t) :=
  ⟨fun _ _ => rfl, fun _ _ _ => rfl⟩

/-- C9 (counterexample): the grammar is not loaded outside the per-call
parsing path — already the first `parse` call performs a grammar read
(count 1, not 0), and two calls perform two reads, so the compiled
parser is rebuilt rather than built at most once per process. -/
theorem grammar_read_on_every_parse_counterexample :
    (parseT goodEnv "SHOW COLLECTIONS").2 = 1 ∧
    (parseT goodEnv "SHOW COLLECTIONS").2 +
      (parseT goodEnv "SHOW COLLECTIONS").2 = 2 :=
  ⟨rfl, rfl⟩

/-- C9 (amended): every `parse` call reads the grammar file and builds
a fresh `Lark` parser exactly once, inside the call — grammar loading
I/O is on the per-call parsing path, not one-time process state. -/
theorem grammar_read_once_per_call (env : Env) (q : String) :
    (parseT env q).2 = 1 := rfl

/-- C10: a failure to locate, open or read the grammar file during a
parse call is caught by the `except` clause of `parse` and surfaced as
`QuerySyntaxError` wrapping the original I/O error. -/
theorem grammar_io_error_wrapped (env : Env) (q : String) (msg : String)
    (h : env.grammar = .error msg) :
    parse env q = .error ⟨.ioError msg⟩ := by
  simp [parse, parseBody, build_parse_tree, build_parse_treeT, read_grammar, h,
    Bind.bind, Except.bind]

/-- C10 witness: a missing grammar file surfaces as `QuerySyntaxError`
wrapping the OSError. -/
theorem grammar_io_error_wrapped_witness :
    parse ⟨.error "No such file or directory"⟩ "SELECT * FROM people" =
      .error ⟨.ioError "No such file or directory"⟩ :=
  grammar_io_error_wrapped ⟨.error "No such file or directory"⟩
    "SELECT * FROM people" "No such file or directory" rfl

/-! ### Which statements each statement parser can return -/

theorem parseSelectColl_ok {fuel : Nat} {sub : Subset} {kw : CKw}
    {tks : List Tok} {s : Stmt} (h : parseSelectColl fuel sub kw tks = .ok s) :
    ∃ subj wh lim, s = .selectC sub kw subj wh lim := by
  unfold parseSelectColl at h
  obtain ⟨x, -, h⟩ := except_bind_ok.mp h
  obtain ⟨subj, r1⟩ := x
  obtain ⟨y, -, h⟩ := except_bind_ok.mp h
  obtain ⟨wh, r2⟩ := y
  obtain ⟨z, -, h⟩ := except_bind_ok.mp h
  obtain ⟨lim, r3⟩ := z
  obtain ⟨-, -, h⟩ := except_bind_ok.mp h
  exact ⟨subj, wh, lim, by simpa [Pure.pure, Except.pure] using h.symm⟩

theorem parseSelectAfterSubset_keyword {fuel : Nat} {sub : Subset}
    {tks : List Tok} {s : Stmt} (h : parseSelectAfterSubset fuel sub tks = .ok s) :
    s.keyword = "SELECT" := by
  unfold parseSelectAfterSubset at h
  split at h
  · obtain ⟨y, -, h⟩ := except_bind_ok.mp h
    obtain ⟨subj, r3⟩ := y
    obtain ⟨-, -, h⟩ := except_bind_ok.mp h
    obtain rfl : Stmt.selectD sub subj = s := by
      simpa [Pure.pure, Except.pure] using h
    rfl
  · obtain ⟨subj, wh, lim, rfl⟩ := parseSelectColl_ok h; rfl
  · obtain ⟨subj, wh, lim, rfl⟩ := parseSelectColl_ok h; rfl
  · simp at h

theorem parseSelectRest_keyword {fuel : Nat} {tks : List Tok} {s : Stmt}
    (h : parseSelectRest fuel tks = .ok s) : s.keyword = "SELECT" := by
  unfold parseSelectRest at h
  obtain ⟨x, -, h⟩ := except_bind_ok.mp h
  obtain ⟨sub, r1⟩ := x
  exact parseSelectAfterSubset_keyword h

theorem parseUpdateColl_ok {fuel : Nat} {kw : CKw} {tks : List Tok} {s : Stmt}
    (h : parseUpdateColl fuel kw tks = .ok s) :
    ∃ subj sets wh, s = .updateC kw subj sets wh := by
  unfold parseUpdateColl at h
  obtain ⟨x, -, h⟩ := except_bind_ok.mp h
  obtain ⟨subj, r1⟩ := x
  obtain ⟨r2, -, h⟩ := except_bind_ok.mp h
  obtain ⟨y, -, h⟩ := except_bind_ok.mp h
  obtain ⟨sets, r3⟩ := y
  obtain ⟨r4, -, h⟩ := except_bind_ok.mp h
  obtain ⟨z, -, h⟩ := except_bind_ok.mp h
  obtain ⟨wh, r5⟩ := z
  obtain ⟨-, -, h⟩ := except_bind_ok.mp h
  exact ⟨subj, sets, wh, by simpa [Pure.pure, Except.pure] using h.symm⟩

theorem parseUpdateRest_keyword {fuel : Nat} {tks : List Tok} {s : Stmt}
    (h : parseUpdateRest fuel tks = .ok s) : s.keyword = "UPDATE" := by
  unfold parseUpdateRest at h
  split at h
  · obtain ⟨x, -, h⟩ := except_bind_ok.mp h
    obtain ⟨subj, r1⟩ := x
    obtain ⟨r2, -, h⟩ := except_bind_ok.mp h
    obtain ⟨y, -, h⟩ := except_bind_ok.mp h
    obtain ⟨sets, r3⟩ := y
    obtain ⟨-, -, h⟩ := except_bind_ok.mp h
    obtain rfl : Stmt.updateD subj sets = s := by
      simpa [Pure.pure, Except.pure] using h
    rfl
  · obtain ⟨subj, sets, wh, rfl⟩ := parseUpdateColl_ok h; rfl
  · obtain ⟨subj, sets, wh, rfl⟩ := parseUpdateColl_ok h; rfl
  · simp at h

theorem parseDeleteColl_ok {fuel : Nat} {kw : CKw} {tks : List Tok} {s : Stmt}
    (h : parseDeleteColl fuel kw tks = .ok s) :
    ∃ subj wh, s = .deleteC kw subj wh := by
  unfold parseDeleteColl at h
  obtain ⟨x, -, h⟩ := except_bind_ok.mp h
  obtain ⟨subj, r1⟩ := x
  obtain ⟨r2, -, h⟩ := except_bind_ok.mp h
  obtain ⟨y, -, h⟩ := except_bind_ok.mp h
  obtain ⟨wh, r3⟩ := y
  obtain ⟨-, -, h⟩ := except_bind_ok.mp h
  exact ⟨subj, wh, by simpa [Pure.pure, Except.pure] using h.symm⟩

theorem parseDeleteRest_keyword {fuel : Nat} {tks : List Tok} {s : Stmt}
    (h : parseDeleteRest fuel tks = .ok s) : s.keyword = "DELETE" := by
  unfold parseDeleteRest at h
  split at h
  · obtain ⟨x, -, h⟩ := except_bind_ok.mp h
    obtain ⟨subj, r1⟩ := x
    obtain ⟨-, -, h⟩ := except_bind_ok.mp h
    obtain rfl : Stmt.deleteD subj = s := by
      simpa [Pure.pure, Except.pure] using h
    rfl
  · obtain ⟨subj, wh, rfl⟩ := parseDeleteColl_ok h; rfl
  · obtain ⟨subj, wh, rfl⟩ := parseDeleteColl_ok h; rfl
  · simp at h

theorem parseShowRest_ok {tks : List Tok} {s : Stmt}
    (h : parseShowRest tks = .ok s) : s = .showColl := by
  unfold parseShowRest at h
  obtain ⟨r, -, h⟩ := except_bind_ok.mp h
  obtain ⟨-, -, h⟩ := except_bind_ok.mp h
  simpa [Pure.pure, Except.pure] using h.symm

/-- A derived statement's kind matches the leading token of the token
list it was derived from. -/
theorem parseStmt_keyword {tks : List Tok} {stmt : Stmt}
    (h : parseStmt tks = .ok stmt) :
    ∃ t rest, tks = t :: rest ∧ t.ty = stmt.keyword := by
  cases tks with
  | nil => simp [parseStmt] at h
  | cons t rest =>
    simp only [parseStmt] at h
    split_ifs at h with h1 h2 h3 h4
    · exact ⟨t, rest, rfl, by rw [h1, parseSelectRest_keyword h]⟩
    · exact ⟨t, rest, rfl, by rw [h2, parseUpdateRest_keyword h]⟩
    · exact ⟨t, rest, rfl, by rw [h3, parseDeleteRest_keyword h]⟩
    · have := parseShowRest_ok h
      exact ⟨t, rest, rfl, by rw [h4, this]; rfl⟩

/-! ### How the transform computes on grammar-shaped trees -/

theorem transformList_of_id {l : List Node}
    (h : ∀ x ∈ l, transformNode x = .ok x) : transformList l = .ok l := by
  induction l with
  | nil => rfl
  | cons c cs ih =>
    have hc : transformNode c = .ok c := h c (by simp)
    have hcs : transformList cs = .ok cs := ih fun x hx => h x (by simp [hx])
    simp [transformList, hc, hcs]

theorem tn_propT (f : String) : transformNode (propT f) = .ok (propT f) := rfl

theorem tn_operatorT (op : String) :
    transformNode (operatorT op) = .ok (operatorT op) := rfl

theorem tn_literalT (ty tx : String) :
    transformNode (literalT ty tx) = .ok (literalT ty tx) := rfl

theorem tn_subjectT (s : String) :
    transformNode (subjectT s) = .ok (subjectT s) := rfl

theorem tn_subjTypeT (k : String) :
    transformNode (subjTypeT k) = .ok (subjTypeT k) := rfl

theorem tn_limitT (n : String) :
    transformNode (limitT n) = .ok (limitT n) := rfl

theorem tn_setterT (s : SetterA) :
    transformNode (setterT s) = .ok (setterT s) := rfl

/-- One-step computation rule of the transform on a tree node. -/
theorem transformNode_tree (d : String) (ch : List Node) :
    transformNode (.tree d ch) =
      (match transformList ch with
       | .error e => .error e
       | .ok tch => applyMethod d tch) := rfl

/-- A tree whose rule has no callback and whose children transform to
themselves is rebuilt unchanged. -/
theorem tn_tree_inert {d : String} {ch : List Node}
    (hd : applyMethod d ch = .ok (.tree d ch))
    (h : transformList ch = .ok ch) :
    transformNode (.tree d ch) = .ok (.tree d ch) := by
  rw [transformNode_tree, h]
  exact hd

theorem tn_matchingT (m : Matching) :
    transformNode (matchingT m) = .ok (matchingT m) := by
  cases m with
  | lit ty tx => rfl
  | arr lits =>
    refine tn_tree_inert rfl (transformList_of_id ?_)
    intro x hx
    simp only [List.mem_cons, List.not_mem_nil, or_false] at hx
    subst hx
    refine tn_tree_inert rfl (transformList_of_id ?_)
    intro x hx
    obtain ⟨p, -, rfl⟩ := List.mem_map.mp hx
    rfl

theorem tn_condT (c : Cond) : transformNode (condT c) = .ok (condT c) := by
  refine tn_tree_inert rfl (transformList_of_id ?_)
  intro x hx
  simp only [List.mem_cons, List.not_mem_nil, or_false] at hx
  rcases hx with rfl | rfl | rfl
  · rfl
  · rfl
  · exact tn_matchingT c.rhs

theorem tn_whereT (cs : List Cond) :
    transformNode (whereT cs) = .ok (whereT cs) := by
  refine tn_tree_inert rfl (transformList_of_id ?_)
  intro x hx
  obtain ⟨c, -, rfl⟩ := List.mem_map.mp hx
  exact tn_condT c

theorem tn_whereOptT (wh : Option (List Cond)) :
    transformNode (whereOptT wh) = .ok (whereOptT wh) := by
  cases wh with
  | none => rfl
  | some cs => exact tn_whereT cs

theorem tn_subsetT (sub : Subset) :
    transformNode (subsetT sub) = .ok (subsetT sub) := by
  cases sub with
  | star => rfl
  | fields ns =>
    refine tn_tree_inert rfl (transformList_of_id ?_)
    intro x hx
    simp only [List.mem_cons, List.not_mem_nil, or_false] at hx
    subst hx
    refine tn_tree_inert rfl (transformList_of_id ?_)
    intro x hx
    obtain ⟨f, -, rfl⟩ := List.mem_map.mp hx
    rfl

theorem tn_limOptT (lim : Option String) :
    transformNode (limOptT lim) = .ok (limOptT lim) := by
  cases lim with
  | none => rfl
  | some n => rfl

theorem tn_settersT (ss : List SetterA) :
    transformNode (settersT ss) = .ok (settersT ss) := by
  refine tn_tree_inert rfl (transformList_of_id ?_)
  intro x hx
  obtain ⟨s, -, rfl⟩ := List.mem_map.mp hx
  rfl

/-- Wrapping a transformed statement under the `start` rule (which has
no callback) rebuilds the root around the statement's result. -/
theorem start_wrap {inner : Node} {m : Except PyErr Descr}
    (h : transformNode inner = m.map Node.qdict) :
    transformNode (.tree "start" [inner]) =
      m.map fun d => Node.tree "start" [.qdict d] := by
  have e2 : transformList [inner] =
      (match transformNode inner with
       | .error e => .error e
       | .ok t => .ok [t]) := rfl
  cases m with
  | ok d =>
    have h1 : transformNode inner = .ok (.qdict d) := h
    rw [transformNode_tree, e2, h1]
    rfl
  | error e =>
    have h1 : transformNode inner = .error e := h
    rw [transformNode_tree, e2, h1]
    rfl

/-- The bottom-up transform of a derived statement's parse tree fires
exactly the statement rule's callback on the untransformed sub-trees. -/
theorem transform_toPTree (st : Stmt) :
    transformNode (toPTree st) =
      (stmtApplied st).map fun d => Node.tree "start" [.qdict d] := by
  cases st with
  | selectC sub kw subj wh lim =>
    refine start_wrap ?_
    have h5 : transformList
        [subsetT sub, subjTypeT kw.text, subjectT subj, whereOptT wh, limOptT lim] =
        .ok [subsetT sub, subjTypeT kw.text, subjectT subj, whereOptT wh,
          limOptT lim] := by
      refine transformList_of_id ?_
      intro x hx
      simp only [List.mem_cons, List.not_mem_nil, or_false] at hx
      rcases hx with rfl | rfl | rfl | rfl | rfl
      · exact tn_subsetT sub
      · rfl
      · rfl
      · exact tn_whereOptT wh
      · exact tn_limOptT lim
    rw [show stmtT (.selectC sub kw subj wh lim) =
      Node.tree "select_collection"
        [subsetT sub, subjTypeT kw.text, subjectT subj, whereOptT wh,
          limOptT lim] from rfl]
    rw [transformNode_tree, h5]
    rfl
  | selectD sub subj =>
    refine start_wrap ?_
    have h3 : transformList [subsetT sub, subjTypeT "AT", subjectT subj] =
        .ok [subsetT sub, subjTypeT "AT", subjectT subj] := by
      refine transformList_of_id ?_
      intro x hx
      simp only [List.mem_cons, List.not_mem_nil, or_false] at hx
      rcases hx with rfl | rfl | rfl
      · exact tn_subsetT sub
      · rfl
      · rfl
    rw [show stmtT (.selectD sub subj) =
      Node.tree "select_document" [subsetT sub, subjTypeT "AT", subjectT subj]
      from rfl]
    rw [transformNode_tree, h3]
    rfl
  | updateC kw subj sets wh =>
    refine start_wrap ?_
    have h4 : transformList
        [subjTypeT kw.text, subjectT subj, settersT sets, whereT wh] =
        .ok [subjTypeT kw.text, subjectT subj, settersT sets, whereT wh] := by
      refine transformList_of_id ?_
      intro x hx
      simp only [List.mem_cons, List.not_mem_nil, or_false] at hx
      rcases hx with rfl | rfl | rfl | rfl
      · rfl
      · rfl
      · exact tn_settersT sets
      · exact tn_whereT wh
    rw [show stmtT (.updateC kw subj sets wh) =
      Node.tree "update_collection"
        [subjTypeT kw.text, subjectT subj, settersT sets, whereT wh] from rfl]
    rw [transformNode_tree, h4]
    rfl
  | updateD subj sets =>
    refine start_wrap ?_
    have h3 : transformList [subjTypeT "AT", subjectT subj, settersT sets] =
        .ok [subjTypeT "AT", subjectT subj, settersT sets] := by
      refine transformList_of_id ?_
      intro x hx
      simp only [List.mem_cons, List.not_mem_nil, or_false] at hx
      rcases hx with rfl | rfl | rfl
      · rfl
      · rfl
      · exact tn_settersT sets
    rw [show stmtT (.updateD subj sets) =
      Node.tree "update_document" [subjTypeT "AT", subjectT subj, settersT sets]
      from rfl]
    rw [transformNode_tree, h3]
    rfl
  | deleteC kw subj wh =>
    refine start_wrap ?_
    have h3 : transformList [subjTypeT kw.text, subjectT subj, whereT wh] =
        .ok [subjTypeT kw.text, subjectT subj, whereT wh] := by
      refine transformList_of_id ?_
      intro x hx
      simp only [List.mem_cons, List.not_mem_nil, or_false] at hx
      rcases hx with rfl | rfl | rfl
      · rfl
      · rfl
      · exact tn_whereT wh
    rw [show stmtT (.deleteC kw subj wh) =
      Node.tree "delete_collection" [subjTypeT kw.text, subjectT subj, whereT wh]
      from rfl]
    rw [transformNode_tree, h3]
    rfl
  | deleteD subj =>
    refine start_wrap ?_
    have h2 : transformList [subjTypeT "AT", subjectT subj] =
        .ok [subjTypeT "AT", subjectT subj] := by
      refine transformList_of_id ?_
      intro x hx
      simp only [List.mem_cons, List.not_mem_nil, or_false] at hx
      rcases hx with rfl | rfl
      · rfl
      · rfl
    rw [show stmtT (.deleteD subj) =
      Node.tree "delete_document" [subjTypeT "AT", subjectT subj] from rfl]
    rw [transformNode_tree, h2]
    rfl
  | showColl => rfl

/-! ### Success shape of the full pipeline -/

/-- Every successful `parse` went through the whole pipeline: the query
lexed, one statement was derived, the statement rule's callback built a
descriptor dict, and exactly that dict is the result. -/
theorem parse_ok_shape {env : Env} {q : String} {n : Node}
    (h : parse env q = .ok n) :
    ∃ tks stmt d, lexQuery q = .ok tks ∧ parseStmt tks = .ok stmt ∧
      stmtApplied stmt = .ok d ∧ n = .qdict d := by
  have hb : parseBody env q = .ok n := by
    unfold parse at h
    cases hb : parseBody env q with
    | ok m => rw [hb] at h; cases h; rfl
    | error e => rw [hb] at h; exact absurd h (by simp)
  unfold parseBody at hb
  obtain ⟨pt, hpt, hb⟩ := except_bind_ok.mp hb
  unfold build_parse_tree build_parse_treeT at hpt
  cases hg : read_grammar env with
  | error e =>
    rw [hg] at hpt
    exact absurd (show (Except.error e : Except PyErr Node) = .ok pt from hpt)
      (by simp)
  | ok g =>
    rw [hg] at hpt
    have hpt2 : lark_parse g q = .ok pt := hpt
    clear hpt
    rename' hpt2 => hpt
    unfold lark_parse at hpt
    split at hpt
    · cases hlex : lexQuery q with
      | error e =>
        rw [hlex] at hpt
        exact absurd (show (Except.error e : Except PyErr Node) = .ok pt from hpt)
          (by simp)
      | ok tks =>
        rw [hlex] at hpt
        have hpt2 : (match parseStmt tks with
            | Except.error e => Except.error e
            | Except.ok stmt => Except.ok (toPTree stmt)) = Except.ok pt := hpt
        clear hpt
        cases hps : parseStmt tks with
        | error e =>
          rw [hps] at hpt2
          exact absurd hpt2 (by simp)
        | ok stmt =>
          rw [hps] at hpt2
          obtain rfl : toPTree stmt = pt := by
            injection hpt2
          obtain ⟨ql, hql, hb⟩ := except_bind_ok.mp hb
          rw [show FSQLTree.transform {} (toPTree stmt) =
            transformNode (toPTree stmt) from rfl, transform_toPTree] at hql
          cases hsa : stmtApplied stmt with
          | error e => rw [hsa] at hql; exact absurd hql (by simp [Except.map])
          | ok d =>
            rw [hsa] at hql
            obtain rfl : Node.tree "start" [.qdict d] = ql := by
              simpa [Except.map] using hql
            have hn : n = .qdict d := by
              simpa [Node.childrenE, listGet, Bind.bind, Except.bind] using hb.symm
            exact ⟨tks, stmt, d, rfl, hps, hsa, hn⟩
    · exact absurd hpt (by simp)

/-- A successful statement callback tags its descriptor with the query
type of the statement's keyword. -/
theorem stmtApplied_query_type {stmt : Stmt} {d : Descr}
    (h : stmtApplied stmt = .ok d) : d.query_type = stmt.qtype := by
  cases stmt with
  | selectC sub kw subj wh lim =>
    obtain ⟨f, s, st, w, l, -, -, -, -, -, rfl⟩ := do_select_ok_shape h
    rfl
  | selectD sub subj =>
    obtain ⟨f, s, st, w, l, -, -, -, -, -, rfl⟩ := do_select_ok_shape h
    rfl
  | updateC kw subj sets wh =>
    obtain ⟨ss, s, st, w, -, -, -, -, rfl⟩ := update_ok_shape h
    rfl
  | updateD subj sets =>
    obtain ⟨ss, s, st, w, -, -, -, -, rfl⟩ := update_ok_shape h
    rfl
  | deleteC kw subj wh =>
    obtain ⟨s, st, w, -, -, -, rfl⟩ := delete_ok_shape h
    rfl
  | deleteD subj =>
    obtain ⟨s, st, w, -, -, -, rfl⟩ := delete_ok_shape h
    rfl
  | showColl =>
    obtain rfl : Descr.showQ .none (some .COLLECTION) Option.none = d := by
      simpa [stmtApplied, show_collections] using h
    rfl

/-- The show callback builds exactly the fixed show descriptor. -/
theorem stmtApplied_show {d : Descr} (h : stmtApplied .showColl = .ok d) :
    d = .showQ .none (some .COLLECTION) Option.none := by
  simpa [stmtApplied, show_collections] using h.symm

/-! ### Claim theorems (second batch) -/

/-- C1: for every environment and input string, `parse` either returns
a complete descriptor dict or raises `QuerySyntaxError` carrying the
failure that occurred inside the pipeline as its cause — no partial
result ever escapes. -/
theorem parse_wraps_all_failures (env : Env) (q : String) :
    (∃ d, parse env q = .ok (.qdict d)) ∨
    (∃ e, parse env q = .error ⟨e⟩ ∧ parseBody env q = .error e) := by
  cases hb : parseBody env q with
  | ok n =>
    have hp : parse env q = .ok n := by unfold parse; rw [hb]
    obtain ⟨tks, stmt, d, -, -, -, rfl⟩ := parse_ok_shape hp
    exact .inl ⟨d, hp⟩
  | error e =>
    have hp : parse env q = .error ⟨e⟩ := by unfold parse; rw [hb]
    exact .inr ⟨e, hp, rfl⟩

/-- C2: a successful `parse` returns a descriptor whose `query_type`
matches the leading statement keyword of the input, and `SHOW
COLLECTIONS` yields exactly the fixed show descriptor (subject `None`,
subject type Collection, where `None`). -/
theorem query_type_matches_leading_keyword (env : Env) (q : String) (d : Descr)
    (h : parse env q = .ok (.qdict d)) :
    (leadingTy q = some "SELECT" → d.query_type = .SELECT) ∧
    (leadingTy q = some "UPDATE" → d.query_type = .UPDATE) ∧
    (leadingTy q = some "DELETE" → d.query_type = .DELETE) ∧
    (leadingTy q = some "SHOW" →
      d = .showQ .none (some .COLLECTION) Option.none) := by
  obtain ⟨tks, stmt, d2, hlex, hps, hsa, hd⟩ := parse_ok_shape h
  obtain rfl : d = d2 := Node.qdict.inj hd
  obtain ⟨t, rest, rfl, hkw⟩ := parseStmt_keyword hps
  have hlead : leadingTy q = some t.ty := by simp [leadingTy, hlex]
  have hqt : d.query_type = stmt.qtype := stmtApplied_query_type hsa
  have keyq : ∀ k : String, t.ty = k → stmt.keyword = k := fun k hk =>
    hkw.symm.trans hk
  refine ⟨?_, ?_, ?_, ?_⟩
  · intro hS
    rw [hlead] at hS
    have hk : stmt.keyword = "SELECT" := keyq _ (Option.some.inj hS)
    rw [hqt]
    cases stmt <;> simp_all [Stmt.keyword, Stmt.qtype]
  · intro hS
    rw [hlead] at hS
    have hk : stmt.keyword = "UPDATE" := keyq _ (Option.some.inj hS)
    rw [hqt]
    cases stmt <;> simp_all [Stmt.keyword, Stmt.qtype]
  · intro hS
    rw [hlead] at hS
    have hk : stmt.keyword = "DELETE" := keyq _ (Option.some.inj hS)
    rw [hqt]
    cases stmt <;> simp_all [Stmt.keyword, Stmt.qtype]
  · intro hS
    rw [hlead] at hS
    have hk : stmt.keyword = "SHOW" := keyq _ (Option.some.inj hS)
    have hstmt : stmt = .showColl := by
      cases stmt <;> simp_all [Stmt.keyword]
    subst hstmt
    exact stmtApplied_show hsa

/-- Evaluations of `as_fsql_subject_type` on the three keyword
sub-trees. -/
theorem as_fsql_subject_type_within :
    as_fsql_subject_type (subjTypeT "WITHIN") = .ok (some .COLLECTION_GROUP) := rfl

theorem as_fsql_subject_type_from :
    as_fsql_subject_type (subjTypeT "FROM") = .ok (some .COLLECTION) := rfl

theorem as_fsql_subject_type_at :
    as_fsql_subject_type (subjTypeT "AT") = .ok (some .DOCUMENT) := rfl

/-- A successful statement callback resolves the descriptor's subject
type from the statement's subject keyword. -/
theorem stmtApplied_subject_type {stmt : Stmt} {d : Descr}
    (h : stmtApplied stmt = .ok d) :
    (stmt.subjectKw = some "WITHIN" → d.subject_type = some .COLLECTION_GROUP) ∧
    (stmt.subjectKw = some "FROM" → d.subject_type = some .COLLECTION) ∧
    (stmt.subjectKw = some "AT" → d.subject_type = some .DOCUMENT) := by
  have stEq : ∀ {k : String} {st : Option FSQLSubjectType}
      (v : Option FSQLSubjectType),
      as_fsql_subject_type (subjTypeT k) = .ok v →
      as_fsql_subject_type (subjTypeT k) = .ok st → st = v := by
    intro k st v hv hst
    rw [hv] at hst
    exact (Except.ok.inj hst).symm
  cases stmt with
  | selectC sub kw subj wh lim =>
    obtain ⟨f, s, st, w, l, -, -, hst, -, -, rfl⟩ := do_select_ok_shape h
    cases kw with
    | fromKw =>
      obtain rfl : st = some .COLLECTION := stEq _ as_fsql_subject_type_from hst
      refine ⟨fun hk => ?_, fun _ => rfl, fun hk => ?_⟩ <;>
        simp [Stmt.subjectKw, CKw.text] at hk
    | withinKw =>
      obtain rfl : st = some .COLLECTION_GROUP :=
        stEq _ as_fsql_subject_type_within hst
      refine ⟨fun _ => rfl, fun hk => ?_, fun hk => ?_⟩ <;>
        simp [Stmt.subjectKw, CKw.text] at hk
  | selectD sub subj =>
    obtain ⟨f, s, st, w, l, -, -, hst, -, -, rfl⟩ := do_select_ok_shape h
    obtain rfl : st = some .DOCUMENT := stEq _ as_fsql_subject_type_at hst
    refine ⟨fun hk => ?_, fun hk => ?_, fun _ => rfl⟩ <;>
      simp [Stmt.subjectKw] at hk
  | updateC kw subj sets wh =>
    obtain ⟨ss, s, st, w, -, -, hst, -, rfl⟩ := update_ok_shape h
    cases kw with
    | fromKw =>
      obtain rfl : st = some .COLLECTION := stEq _ as_fsql_subject_type_from hst
      refine ⟨fun hk => ?_, fun _ => rfl, fun hk => ?_⟩ <;>
        simp [Stmt.subjectKw, CKw.text] at hk
    | withinKw =>
      obtain rfl : st = some .COLLECTION_GROUP :=
        stEq _ as_fsql_subject_type_within hst
      refine ⟨fun _ => rfl, fun hk => ?_, fun hk => ?_⟩ <;>
        simp [Stmt.subjectKw, CKw.text] at hk
  | updateD subj sets =>
    obtain ⟨ss, s, st, w, -, -, hst, -, rfl⟩ := update_ok_shape h
    obtain rfl : st = some .DOCUMENT := stEq _ as_fsql_subject_type_at hst
    refine ⟨fun hk => ?_, fun hk => ?_, fun _ => rfl⟩ <;>
      simp [Stmt.subjectKw] at hk
  | deleteC kw subj wh =>
    obtain ⟨s, st, w, -, hst, -, rfl⟩ := delete_ok_shape h
    cases kw with
    | fromKw =>
      obtain rfl : st = some .COLLECTION := stEq _ as_fsql_subject_type_from hst
      refine ⟨fun hk => ?_, fun _ => rfl, fun hk => ?_⟩ <;>
        simp [Stmt.subjectKw, CKw.text] at hk
    | withinKw =>
      obtain rfl : st = some .COLLECTION_GROUP :=
        stEq _ as_fsql_subject_type_within hst
      refine ⟨fun _ => rfl, fun hk => ?_, fun hk => ?_⟩ <;>
        simp [Stmt.subjectKw, CKw.text] at hk
  | deleteD subj =>
    obtain ⟨s, st, w, -, hst, -, rfl⟩ := delete_ok_shape h
    obtain rfl : st = some .DOCUMENT := stEq _ as_fsql_subject_type_at hst
    refine ⟨fun hk => ?_, fun hk => ?_, fun _ => rfl⟩ <;>
      simp [Stmt.subjectKw] at hk
  | showColl =>
    refine ⟨fun hk => ?_, fun hk => ?_, fun hk => ?_⟩ <;>
      simp [Stmt.subjectKw] at hk

/-- C3: for every accepted query, the keyword introducing the subject
in its derivation exactly determines the descriptor's subject type —
`WITHIN` yields CollectionGroup, `FROM` yields Collection, `AT` yields
Document. -/
theorem subject_keyword_determines_subject_type (env : Env) (q : String)
    (d : Descr) (tks : List Tok) (stmt : Stmt)
    (hlex : lexQuery q = .ok tks) (hps : parseStmt tks = .ok stmt)
    (h : parse env q = .ok (.qdict d)) :
    (stmt.subjectKw = some "WITHIN" → d.subject_type = some .COLLECTION_GROUP) ∧
    (stmt.subjectKw = some "FROM" → d.subject_type = some .COLLECTION) ∧
    (stmt.subjectKw = some "AT" → d.subject_type = some .DOCUMENT) := by
  obtain ⟨tks2, stmt2, d2, hlex2, hps2, hsa, hd⟩ := parse_ok_shape h
  obtain rfl : d = d2 := Node.qdict.inj hd
  obtain rfl : tks = tks2 := by
    rw [hlex] at hlex2
    exact Except.ok.inj hlex2
  obtain rfl : stmt = stmt2 := by
    rw [hps] at hps2
    exact Except.ok.inj hps2
  exact stmtApplied_subject_type hsa

/-- C3 witness at `SELECT * WITHIN people`. -/
theorem subject_keyword_determines_subject_type_witness :
    ((Stmt.selectC .star .withinKw "people" Option.none Option.none).subjectKw =
        some "WITHIN" →
      (Descr.select (.str "*") (.str "people") (some .COLLECTION_GROUP)
        Option.none .none).subject_type = some .COLLECTION_GROUP) ∧
    ((Stmt.selectC .star .withinKw "people" Option.none Option.none).subjectKw =
        some "FROM" →
      (Descr.select (.str "*") (.str "people") (some .COLLECTION_GROUP)
        Option.none .none).subject_type = some .COLLECTION) ∧
    ((Stmt.selectC .star .withinKw "people" Option.none Option.none).subjectKw =
        some "AT" →
      (Descr.select (.str "*") (.str "people") (some .COLLECTION_GROUP)
        Option.none .none).subject_type = some .DOCUMENT) :=
  subject_keyword_determines_subject_type goodEnv "SELECT * WITHIN people"
    _ _ _ rfl rfl rfl

/-! ### `find_data` on the grammar's where-clause shapes -/

theorem findDataList_map_nil {α : Type} (d : String) (f : α → Node)
    (h : ∀ a, find_data d (f a) = []) (l : List α) :
    findDataList d (l.map f) = [] := by
  induction l with
  | nil => rfl
  | cons a as ih => simp [findDataList, h, ih]

theorem findDataList_map_self {α : Type} (d : String) (f : α → Node)
    (h : ∀ a, find_data d (f a) = [f a]) (l : List α) :
    findDataList d (l.map f) = l.map f := by
  induction l with
  | nil => rfl
  | cons a as ih => simp [findDataList, h, ih]

/-- One-step computation rules for `find_data`. -/
theorem find_data_tree (d da : String) (ch : List Node) :
    find_data d (.tree da ch) =
      (if da = d then [Node.tree da ch] else []) ++ findDataList d ch := rfl

theorem find_data_tok (d ty tv : String) : find_data d (.tok ty tv) = [] := rfl

theorem findDataList_cons (d : String) (c : Node) (cs : List Node) :
    findDataList d (c :: cs) = find_data d c ++ findDataList d cs := rfl

theorem findDataList_nil (d : String) : findDataList d [] = [] := rfl

theorem fd_propT_nil {d : String} (h : ("property" : String) ≠ d) (f : String) :
    find_data d (propT f) = [] := by
  simp [propT, find_data_tree, findDataList_cons, findDataList_nil,
    find_data_tok, h]

theorem fd_operatorT_nil {d : String} (h : ("operator" : String) ≠ d)
    (op : String) : find_data d (operatorT op) = [] := by
  simp [operatorT, find_data_tree, findDataList_cons, findDataList_nil,
    find_data_tok, h]

theorem fd_literalT_nil {d : String} (h : ("literal" : String) ≠ d)
    (ty tx : String) : find_data d (literalT ty tx) = [] := by
  simp [literalT, find_data_tree, findDataList_cons, findDataList_nil,
    find_data_tok, h]

theorem fd_matchingT_nil {d : String} (h1 : ("matching" : String) ≠ d)
    (h2 : ("literal" : String) ≠ d) (h3 : ("array" : String) ≠ d)
    (m : Matching) : find_data d (matchingT m) = [] := by
  cases m with
  | lit ty tx =>
    simp [matchingT, literalT, find_data_tree, findDataList_cons,
      findDataList_nil, find_data_tok, h1, h2]
  | arr lits =>
    simp [matchingT, find_data_tree, findDataList_cons, findDataList_nil,
      h1, h3,
      findDataList_map_nil d (fun p : String × String => literalT p.1 p.2)
        (fun p => fd_literalT_nil h2 p.1 p.2)]

theorem fd_propT_self (f : String) :
    find_data "property" (propT f) = [propT f] := rfl

theorem fd_operatorT_self (op : String) :
    find_data "operator" (operatorT op) = [operatorT op] := rfl

theorem fd_literalT_self (ty tx : String) :
    find_data "literal" (literalT ty tx) = [literalT ty tx] := rfl

theorem fd_matchingT_self (m : Matching) :
    find_data "matching" (matchingT m) = [matchingT m] := by
  cases m with
  | lit ty tx => rfl
  | arr lits =>
    simp [matchingT, find_data_tree, findDataList_cons, findDataList_nil,
      findDataList_map_nil "matching"
        (fun p : String × String => literalT p.1 p.2) (fun p => rfl)]

theorem fd_literal_arrayT (lits : List (String × String)) :
    find_data "literal"
        (.tree "array" (lits.map fun p : String × String => literalT p.1 p.2)) =
      lits.map fun p : String × String => literalT p.1 p.2 := by
  simp [find_data_tree,
    findDataList_map_self "literal"
      (fun p : String × String => literalT p.1 p.2) (fun p => rfl)]

theorem fd_comparrison_condT (c : Cond) :
    find_data "comparrison" (condT c) = [condT c] := by
  simp [condT, find_data_tree, findDataList_cons, findDataList_nil,
    fd_propT_nil (show ("property" : String) ≠ "comparrison" by decide),
    fd_operatorT_nil (show ("operator" : String) ≠ "comparrison" by decide),
    fd_matchingT_nil (show ("matching" : String) ≠ "comparrison" by decide)
      (show ("literal" : String) ≠ "comparrison" by decide)
      (show ("array" : String) ≠ "comparrison" by decide)]

theorem fd_property_condT (c : Cond) :
    find_data "property" (condT c) = [propT c.field] := by
  simp [condT, find_data_tree, findDataList_cons, findDataList_nil,
    fd_propT_self,
    fd_operatorT_nil (show ("operator" : String) ≠ "property" by decide),
    fd_matchingT_nil (show ("matching" : String) ≠ "property" by decide)
      (show ("literal" : String) ≠ "property" by decide)
      (show ("array" : String) ≠ "property" by decide)]

theorem fd_operator_condT (c : Cond) :
    find_data "operator" (condT c) = [operatorT c.op] := by
  simp [condT, find_data_tree, findDataList_cons, findDataList_nil,
    fd_operatorT_self,
    fd_propT_nil (show ("property" : String) ≠ "operator" by decide),
    fd_matchingT_nil (show ("matching" : String) ≠ "operator" by decide)
      (show ("literal" : String) ≠ "operator" by decide)
      (show ("array" : String) ≠ "operator" by decide)]

theorem fd_matching_condT (c : Cond) :
    find_data "matching" (condT c) = [matchingT c.rhs] := by
  simp [condT, find_data_tree, findDataList_cons, findDataList_nil,
    fd_matchingT_self,
    fd_propT_nil (show ("property" : String) ≠ "matching" by decide),
    fd_operatorT_nil (show ("operator" : String) ≠ "matching" by decide)]

theorem fd_comparrison_whereT (cs : List Cond) :
    find_data "comparrison" (whereT cs) = cs.map condT := by
  simp [whereT, find_data_tree,
    findDataList_map_self "comparrison" condT fd_comparrison_condT]

/-! ### The transformer's where-clause construction, clause by clause -/

theorem arrElemEval_literalT (ty tx : String) :
    arrElemEval (literalT ty tx) = literal_eval tx := rfl

theorem mapM_arrElemEval (lits : List (String × String)) :
    (lits.map fun p => literalT p.1 p.2).mapM arrElemEval =
      lits.mapM fun p => literal_eval p.2 := by
  induction lits with
  | nil => rfl
  | cons p ps ih =>
    rw [List.map_cons, List.mapM_cons, List.mapM_cons, arrElemEval_literalT, ih]

theorem data_value_operator_condT (c : Cond) :
    data_value (condT c) "operator" = .ok c.op := by
  unfold data_value
  rw [fd_operator_condT]
  rfl

theorem as_fsql_match_condT (c : Cond) :
    as_fsql_match (condT c) = specMatch c.rhs := by
  obtain ⟨f, op, rhs⟩ := c
  unfold as_fsql_match
  rw [fd_matching_condT]
  cases rhs with
  | lit ty tx => rfl
  | arr lits =>
    show (do
        let vs ← (find_data "literal"
          (.tree "array" (lits.map fun p => literalT p.1 p.2))).mapM arrElemEval
        pure (PyVal.list vs) : Except PyErr PyVal) = specMatch (.arr lits)
    rw [fd_literal_arrayT, mapM_arrElemEval]
    rfl

theorem token_as_where_condT (c : Cond) :
    token_as_where (condT c) = specCond c := by
  unfold token_as_where specCond
  rw [fd_property_condT, data_value_operator_condT, as_fsql_match_condT]
  rfl

theorem mapM_token_as_where (conds : List Cond) :
    (conds.map condT).mapM token_as_where = conds.mapM specCond := by
  induction conds with
  | nil => rfl
  | cons c cs ih =>
    rw [List.map_cons, List.mapM_cons, List.mapM_cons, token_as_where_condT, ih]

/-- C6: for every where clause the grammar can derive, `as_where`
produces one `FSQLWhere` per comparison in source order, each holding
the property name resolved by `as_value` (a verbatim string), the
operator token's text verbatim, and the match value — one coerced value
for a single literal, or the ordered list of every bracketed element
coerced in source order (`specCond` / `specMatch` state this reading of
the spec); in particular `b in [1, 2, 3]` yields the ordered integer
list `[1, 2, 3]`. -/
theorem where_clauses_in_source_order :
    (∀ conds : List Cond,
      as_where (whereT conds) = (conds.mapM specCond).map some) ∧
    parse goodEnv "SELECT * FROM t WHERE a == 1 AND b in [1, 2, 3]" =
      .ok (.qdict (.select (.str "*") (.str "t") (some .COLLECTION)
        (some [⟨.str "a", "==", .int 1⟩,
          ⟨.str "b", "in", .list [.int 1, .int 2, .int 3]⟩]) .none)) := by
  constructor
  · intro conds
    have e1 : as_where (whereT conds) = (do
        let cs ← (find_data "comparrison" (whereT conds)).mapM token_as_where
        pure (some cs) : Except PyErr (Option (List FSQLWhere))) := rfl
    rw [e1, fd_comparrison_whereT, mapM_token_as_where]
    cases h : conds.mapM specCond with
    | ok cs => simp [h, Except.map, Bind.bind, Except.bind, Pure.pure, Except.pure]
    | error e => simp [h, Except.map, Bind.bind, Except.bind]
  · rfl

/-- C2 witness at `SHOW COLLECTIONS`. -/
theorem query_type_matches_leading_keyword_witness :
    (leadingTy "SHOW COLLECTIONS" = some "SELECT" →
      (Descr.showQ .none (some .COLLECTION) Option.none).query_type = .SELECT) ∧
    (leadingTy "SHOW COLLECTIONS" = some "UPDATE" →
      (Descr.showQ .none (some .COLLECTION) Option.none).query_type = .UPDATE) ∧
    (leadingTy "SHOW COLLECTIONS" = some "DELETE" →
      (Descr.showQ .none (some .COLLECTION) Option.none).query_type = .DELETE) ∧
    (leadingTy "SHOW COLLECTIONS" = some "SHOW" →
      (Descr.showQ .none (some .COLLECTION) Option.none) =
        .showQ .none (some .COLLECTION) Option.none) :=
  query_type_matches_leading_keyword goodEnv "SHOW COLLECTIONS" _ rfl

/-! ### Concrete evaluations of the embedded pipeline (spec §8 examples) -/

example : literal_eval "42" = .ok (.int 42) := rfl
example : literal_eval "4.5" = .ok (.float 45 1) := rfl
example : literal_eval "\x27x\x27" = .ok (.str "x") := rfl
example : literal_eval "\"x\"" = .ok (.str "x") := rfl
example : literal_eval "True" = .ok (.bool true) := rfl
example : literal_eval "None" = .ok (.none) := rfl
example : literal_eval "true" = .error (.valueError "malformed node or string") := rfl
example : literal_eval "null" = .error (.valueError "malformed node or string") := rfl
example : literal_eval "[1, 2, 3]" = .ok (.list [.int 1, .int 2, .int 3]) := rfl
example : literal_eval "(1, 2)" = .ok (.tuple [.int 1, .int 2]) := rfl
example : literal_eval "-5" = .ok (.int (-5)) := rfl
example : literal_eval "1 + 2" = .error (.syntaxError "invalid syntax") := rfl
example : literal_eval "f(1)" = .error (.valueError "malformed node or string") := rfl
example : literal_eval "abc" = .error (.valueError "malformed node or string") := rfl
example : literal_eval "(1)" = .ok (.int 1) := rfl
example : literal_eval "[]" = .ok (.list []) := rfl

example :
    parse goodEnv "SELECT * FROM people" =
      .ok (.qdict (.select (.str "*") (.str "people") (some .COLLECTION)
        Option.none .none)) := rfl

example :
    parse goodEnv "SELECT name, age FROM people WHERE age > 18 LIMIT 5" =
      .ok (.qdict (.select (.list [.str "name", .str "age"]) (.str "people")
        (some .COLLECTION) (some [⟨.str "age", ">", .int 18⟩]) (.int 5))) := rfl

example :
    parse goodEnv "SHOW COLLECTIONS" =
      .ok (.qdict (.showQ .none (some .COLLECTION) Option.none)) := rfl

example :
    parse goodEnv "DELETE WITHIN people WHERE active == false" =
      .error ⟨.valueError "malformed node or string"⟩ := rfl

example :
    parse goodEnv "UPDATE AT people/123 SET active = null" =
      .ok (.qdict (.update (.str "people/123") (some .DOCUMENT) Option.none
        [⟨.str "active", .none⟩])) := rfl

example :
    parse goodEnv "SELECT FROM" = .error ⟨.syntaxError "expected projection"⟩ := rfl

end FSQL
